import Mathlib

/-!
Verification of the rule-based ASL hand-pose classification engine found in
`model.py` (class `GestureRecognizer`).  The engine works on 21 hand
landmarks, decides per-finger open/closed state, matches 26 per-letter
rules, scores matches with a heuristic confidence and selects a single
best letter or rejects the frame.

The main embedding works over total hands (`Fin 21 → Landmark`), matching
the Python behaviour on well-formed inputs, where every list index is in
bounds and no exception can occur.  A second embedding over plain lists of
landmarks (suffix `L`) models Python index errors with `Option`, for the
claims about malformed input and per-rule error isolation.

Floating point numbers are modelled as real numbers.
-/

/-- A hand landmark: a 3-D point, as produced by the upstream detector. -/
structure Landmark where
  x : ℝ
  y : ℝ
  z : ℝ

instance : Inhabited Landmark := ⟨⟨0, 0, 0⟩⟩

/-- A well-formed hand: exactly 21 landmarks, indexed 0..20. -/
def Hand : Type := Fin 21 → Landmark

/-- Euclidean distance between two landmarks (`_get_distance` in model.py). -/
noncomputable def getDistance (l1 l2 : Landmark) : ℝ :=
  Real.sqrt ((l1.x - l2.x) ^ 2 + (l1.y - l2.y) ^ 2 + (l1.z - l2.z) ^ 2)

/-- Finger-closed predicate (`_is_finger_closed` in model.py).  Finger 0 (the
thumb) is special-cased as `landmarks[3].y > landmarks[4].y`; fingers 1..4
use the path-efficiency test on landmarks `4f+1`, `4f+2`, `4f+3`. -/
def isFingerClosed (h : Hand) (f : Fin 5) : Prop :=
  if f.val = 0 then (h 3).y > (h 4).y
  else
    getDistance (h ⟨f.val * 4 + 1, by have := f.isLt; omega⟩)
        (h ⟨f.val * 4 + 3, by have := f.isLt; omega⟩) <
      (getDistance (h ⟨f.val * 4 + 1, by have := f.isLt; omega⟩)
          (h ⟨f.val * 4 + 2, by have := f.isLt; omega⟩) +
        getDistance (h ⟨f.val * 4 + 2, by have := f.isLt; omega⟩)
          (h ⟨f.val * 4 + 3, by have := f.isLt; omega⟩)) * 0.7

/-- The 26 letter rules (`self.rules` in `_init_classifier`), keyed by the
gesture id 0..25 used for letters A..Z.  Each case transcribes the lambda
for that id from model.py. -/
def rule (g : Fin 26) (h : Hand) : Prop :=
  match g.val with
  | 0 => isFingerClosed h 1 ∧ isFingerClosed h 2 ∧ isFingerClosed h 3 ∧
      isFingerClosed h 4 ∧ ¬ isFingerClosed h 0
  | 1 => ¬ isFingerClosed h 1 ∧ ¬ isFingerClosed h 2 ∧ ¬ isFingerClosed h 3 ∧
      ¬ isFingerClosed h 4
  | 2 => getDistance (h 4) (h 8) < 0.1 ∧ ¬ isFingerClosed h 1 ∧
      ¬ isFingerClosed h 2 ∧ ¬ isFingerClosed h 3 ∧ ¬ isFingerClosed h 4
  | 3 => ¬ isFingerClosed h 1 ∧ isFingerClosed h 2 ∧ isFingerClosed h 3 ∧
      isFingerClosed h 4
  | 4 => isFingerClosed h 1 ∧ isFingerClosed h 2 ∧ isFingerClosed h 3 ∧
      isFingerClosed h 4
  | 5 => getDistance (h 4) (h 8) < 0.05 ∧ ¬ isFingerClosed h 2 ∧
      ¬ isFingerClosed h 3 ∧ ¬ isFingerClosed h 4
  | 6 => ¬ isFingerClosed h 1 ∧ isFingerClosed h 2 ∧ isFingerClosed h 3 ∧
      isFingerClosed h 4 ∧ ¬ isFingerClosed h 0
  | 7 => ¬ isFingerClosed h 1 ∧ ¬ isFingerClosed h 2 ∧ isFingerClosed h 3 ∧
      isFingerClosed h 4
  | 8 => isFingerClosed h 1 ∧ isFingerClosed h 2 ∧ isFingerClosed h 3 ∧
      ¬ isFingerClosed h 4
  | 9 => isFingerClosed h 1 ∧ isFingerClosed h 2 ∧ isFingerClosed h 3 ∧
      ¬ isFingerClosed h 4
  | 10 => ¬ isFingerClosed h 1 ∧ ¬ isFingerClosed h 2 ∧ isFingerClosed h 3 ∧
      isFingerClosed h 4 ∧ getDistance (h 4) (h 10) < 0.1
  | 11 => ¬ isFingerClosed h 1 ∧ isFingerClosed h 2 ∧ isFingerClosed h 3 ∧
      isFingerClosed h 4 ∧ (h 4).x > (h 3).x
  | 12 => isFingerClosed h 1 ∧ isFingerClosed h 2 ∧ isFingerClosed h 3 ∧
      (h 4).x < (h 5).x
  | 13 => isFingerClosed h 1 ∧ isFingerClosed h 2 ∧ isFingerClosed h 3 ∧
      isFingerClosed h 4 ∧ (h 4).x < (h 9).x
  | 14 => getDistance (h 4) (h 8) < 0.08
  | 15 => ¬ isFingerClosed h 1 ∧ isFingerClosed h 2 ∧ isFingerClosed h 3 ∧
      isFingerClosed h 4 ∧ (h 8).y > (h 5).y
  | 16 => ¬ isFingerClosed h 1 ∧ isFingerClosed h 2 ∧ isFingerClosed h 3 ∧
      ¬ isFingerClosed h 4 ∧ (h 8).y > (h 5).y
  | 17 => ¬ isFingerClosed h 1 ∧ ¬ isFingerClosed h 2 ∧ isFingerClosed h 3 ∧
      isFingerClosed h 4 ∧ getDistance (h 8) (h 12) < 0.1
  | 18 => isFingerClosed h 1 ∧ isFingerClosed h 2 ∧ isFingerClosed h 3 ∧
      isFingerClosed h 4 ∧ (h 4).z < (h 8).z
  | 19 => isFingerClosed h 1 ∧ isFingerClosed h 2 ∧ isFingerClosed h 3 ∧
      isFingerClosed h 4 ∧ (h 4).x > (h 6).x ∧ (h 4).x < (h 10).x
  | 20 => ¬ isFingerClosed h 1 ∧ ¬ isFingerClosed h 2 ∧ isFingerClosed h 3 ∧
      isFingerClosed h 4 ∧ getDistance (h 8) (h 12) < 0.15
  | 21 => ¬ isFingerClosed h 1 ∧ ¬ isFingerClosed h 2 ∧ isFingerClosed h 3 ∧
      isFingerClosed h 4 ∧ getDistance (h 8) (h 12) > 0.15
  | 22 => ¬ isFingerClosed h 1 ∧ ¬ isFingerClosed h 2 ∧ ¬ isFingerClosed h 3 ∧
      isFingerClosed h 4
  | 23 => (h 8).y > (h 7).y ∧ (h 7).y < (h 6).y ∧ isFingerClosed h 2 ∧
      isFingerClosed h 3 ∧ isFingerClosed h 4
  | 24 => isFingerClosed h 1 ∧ isFingerClosed h 2 ∧ isFingerClosed h 3 ∧
      ¬ isFingerClosed h 4 ∧ ¬ isFingerClosed h 0
  | 25 => ¬ isFingerClosed h 1 ∧ isFingerClosed h 2 ∧ isFingerClosed h 3 ∧
      isFingerClosed h 4 ∧ (h 8).y > (h 5).y
  | _ => False

open Classical

/-- Count of extended (not closed) fingers among the given finger indices:
models the `extended_fingers` counting loops in `_get_gesture_confidence`. -/
noncomputable def extendedCount (h : Hand) (fingers : List (Fin 5)) : ℕ :=
  fingers.foldl (fun n i => if isFingerClosed h i then n else n + 1) 0

/-- Letter-specific reinforcement term of `_get_gesture_confidence`: the
`if gesture_id == k` chain adding 0.15 (or subtracting 0.3 for B) when the
extra geometric check passes; 0 for letters without a check. -/
noncomputable def reinforcement (h : Hand) (g : Fin 26) : ℝ :=
  match g.val with
  | 0 => if (h 4).y < (h 3).y - 0.1 then 0.15 else 0
  | 1 => if extendedCount h [1, 2, 3, 4] = 4 then 0.15 else -0.3
  | 2 => if 0.05 < getDistance (h 4) (h 8) ∧ getDistance (h 4) (h 8) < 0.15
      then 0.15 else 0
  | 3 => if ¬ isFingerClosed h 1 ∧ isFingerClosed h 2 then 0.15 else 0
  | 11 => if ¬ isFingerClosed h 1 ∧ (h 4).x > (h 3).x then 0.15 else 0
  | 14 => if 0.05 < getDistance (h 4) (h 8) ∧ getDistance (h 4) (h 8) < 0.1
      then 0.15 else 0
  | 21 => if ¬ isFingerClosed h 1 ∧ ¬ isFingerClosed h 2 then
      (if getDistance (h 8) (h 12) > 0.2 then 0.15 else 0) else 0
  | 22 => if extendedCount h [1, 2, 3] = 3 then 0.15 else 0
  | 24 => if ¬ isFingerClosed h 4 ∧ ¬ isFingerClosed h 0 then 0.15 else 0
  | _ => 0

/-- Wrist-centering condition of `_get_gesture_confidence`:
`0.2 < landmarks[0].x < 0.8 and 0.2 < landmarks[0].y < 0.8`. -/
def centered (h : Hand) : Prop :=
  0.2 < (h 0).x ∧ (h 0).x < 0.8 ∧ 0.2 < (h 0).y ∧ (h 0).y < 0.8

/-- Confidence scorer (`_get_gesture_confidence`): base 0.75, plus the
letter-specific reinforcement, minus 0.1 per other matching rule (a loop,
modelled as a fold over gesture ids), plus 0.05 when the wrist is centered,
clamped to [0, 1] by `max(0.0, min(confidence, 1.0))`. -/
noncomputable def gestureConfidence (h : Hand) (g : Fin 26) : ℝ :=
  let c1 : ℝ := 0.75 + reinforcement h g
  let c2 : ℝ :=
    (List.finRange 26).foldl (fun c og => if og ≠ g ∧ rule og h then c - 0.1 else c) c1
  let c3 : ℝ := if centered h then c2 + 0.05 else c2
  max 0 (min c3 1)

/-- One iteration of the selection loop in `_recognize_gesture`: if the rule
matches and its confidence strictly exceeds the best so far, the pair is
replaced. -/
noncomputable def recognizeStep (h : Hand) (acc : Option (Fin 26) × ℝ) (g : Fin 26) :
    Option (Fin 26) × ℝ :=
  if rule g h then
    (if gestureConfidence h g > acc.2 then (some g, gestureConfidence h g) else acc)
  else acc

/-- The selection loop of `_recognize_gesture` run over an explicit list of
gesture ids, followed by the `best_confidence > 0.7` acceptance check.  The
engine itself uses the fixed order 0..25 (`recognizeGesture`); the list
parameter supports stating the order-permutation claims. -/
noncomputable def recognizeGestureOrder (ord : List (Fin 26)) (h : Hand) :
    Option (Fin 26) × ℝ :=
  let best := ord.foldl (recognizeStep h) (none, 0)
  if best.2 > 0.7 then best else (none, 0)

/-- `_recognize_gesture`: the selection loop over gesture ids 0..25 in the
fixed dictionary order, then the `> 0.7` acceptance threshold. -/
noncomputable def recognizeGesture (h : Hand) : Option (Fin 26) × ℝ :=
  recognizeGestureOrder (List.finRange 26) h

/-- The consumer-side acceptance check of `process_frame`:
`gesture_id is not None and confidence > 0.6`. -/
def frameAccepts (r : Option (Fin 26) × ℝ) : Prop :=
  r.1 ≠ none ∧ r.2 > 0.6

/-- Number of other letters whose rule also matches the same landmarks, the
quantity driving the ambiguity penalty loop of `_get_gesture_confidence`. -/
noncomputable def otherMatchCount (h : Hand) (g : Fin 26) : ℕ :=
  (List.finRange 26).countP fun og => decide (og ≠ g ∧ rule og h)

/-! ### Characterization of the selection loop -/

lemma recognizeStep_no_rule {h : Hand} {g : Fin 26} (hr : ¬ rule g h)
    (acc : Option (Fin 26) × ℝ) : recognizeStep h acc g = acc := by
  simp [recognizeStep, hr]

lemma recognizeStep_le {h : Hand} {g : Fin 26} (hr : rule g h)
    (acc : Option (Fin 26) × ℝ) (hle : gestureConfidence h g ≤ acc.2) :
    recognizeStep h acc g = acc := by
  simp [recognizeStep, hr, not_lt.mpr hle]

lemma recognizeStep_update {h : Hand} {g : Fin 26} (hr : rule g h)
    (acc : Option (Fin 26) × ℝ) (hgt : gestureConfidence h g > acc.2) :
    recognizeStep h acc g = (some g, gestureConfidence h g) := by
  simp [recognizeStep, hr, hgt]

/-- Complete characterization of the selection fold: either no candidate ever
beat the accumulator (and every matching rule in the list scores no more than
it), or the result is the first matching gesture attaining the maximal
confidence, every earlier match scoring strictly less and every later match
scoring no more. -/
lemma foldl_recognizeStep_char (h : Hand) (L : List (Fin 26)) :
    ∀ acc : Option (Fin 26) × ℝ,
    (L.foldl (recognizeStep h) acc = acc ∧
      ∀ g ∈ L, rule g h → gestureConfidence h g ≤ acc.2) ∨
    (∃ L1 g L2, L = L1 ++ g :: L2 ∧ rule g h ∧
      L.foldl (recognizeStep h) acc = (some g, gestureConfidence h g) ∧
      acc.2 < gestureConfidence h g ∧
      (∀ g2 ∈ L1, rule g2 h → gestureConfidence h g2 < gestureConfidence h g) ∧
      (∀ g2 ∈ L2, rule g2 h → gestureConfidence h g2 ≤ gestureConfidence h g)) := by
  induction L with
  | nil => exact fun acc => Or.inl ⟨rfl, by simp⟩
  | cons a L ih =>
    intro acc
    by_cases hr : rule a h
    · by_cases hgt : gestureConfidence h a > acc.2
      · have hstep := recognizeStep_update hr acc hgt
        rcases ih (some a, gestureConfidence h a) with ⟨heq, hb⟩ |
          ⟨L1, g, L2, hsplit, hrg, heq, hlt, hL1, hL2⟩
        · right
          refine ⟨[], a, L, by simp, hr, ?_, hgt, by simp, ?_⟩
          · rw [List.foldl_cons, hstep, heq]
          · intro g2 hg2 hrg2
            simpa using hb g2 hg2 hrg2
        · right
          refine ⟨a :: L1, g, L2, by simp [hsplit], hrg, ?_, ?_, ?_, hL2⟩
          · rw [List.foldl_cons, hstep, heq]
          · exact lt_trans hgt (by simpa using hlt)
          · intro g2 hg2 hrg2
            rcases List.mem_cons.mp hg2 with rfl | hg2
            · simpa using hlt
            · exact hL1 g2 hg2 hrg2
      · push_neg at hgt
        have hstep := recognizeStep_le hr acc hgt
        rcases ih acc with ⟨heq, hb⟩ | ⟨L1, g, L2, hsplit, hrg, heq, hlt, hL1, hL2⟩
        · left
          refine ⟨by rw [List.foldl_cons, hstep, heq], ?_⟩
          intro g2 hg2 hrg2
          rcases List.mem_cons.mp hg2 with rfl | hg2
          · exact hgt
          · exact hb g2 hg2 hrg2
        · right
          refine ⟨a :: L1, g, L2, by simp [hsplit], hrg,
            by rw [List.foldl_cons, hstep, heq], hlt, ?_, hL2⟩
          intro g2 hg2 hrg2
          rcases List.mem_cons.mp hg2 with rfl | hg2
          · exact lt_of_le_of_lt hgt hlt
          · exact hL1 g2 hg2 hrg2
    · have hstep := recognizeStep_no_rule hr acc
      rcases ih acc with ⟨heq, hb⟩ | ⟨L1, g, L2, hsplit, hrg, heq, hlt, hL1, hL2⟩
      · left
        refine ⟨by rw [List.foldl_cons, hstep, heq], ?_⟩
        intro g2 hg2 hrg2
        rcases List.mem_cons.mp hg2 with rfl | hg2
        · exact absurd hrg2 hr
        · exact hb g2 hg2 hrg2
      · right
        refine ⟨a :: L1, g, L2, by simp [hsplit], hrg,
          by rw [List.foldl_cons, hstep, heq], hlt, ?_, hL2⟩
        intro g2 hg2 hrg2
        rcases List.mem_cons.mp hg2 with rfl | hg2
        · exact absurd hrg2 hr
        · exact hL1 g2 hg2 hrg2

lemma mem_split_cases {L1 L2 : List (Fin 26)} {g g2 : Fin 26}
    (hmem : g2 ∈ L1 ++ g :: L2) : g2 ∈ L1 ∨ g2 = g ∨ g2 ∈ L2 := by
  rcases List.mem_append.mp hmem with h1 | h2
  · exact Or.inl h1
  · rcases List.mem_cons.mp h2 with h | h
    · exact Or.inr (Or.inl h)
    · exact Or.inr (Or.inr h)

lemma bound_of_split {h : Hand} {L L1 L2 : List (Fin 26)} {g : Fin 26}
    (hsplit : L = L1 ++ g :: L2)
    (hL1 : ∀ g2 ∈ L1, rule g2 h → gestureConfidence h g2 < gestureConfidence h g)
    (hL2 : ∀ g2 ∈ L2, rule g2 h → gestureConfidence h g2 ≤ gestureConfidence h g) :
    ∀ g2 ∈ L, rule g2 h → gestureConfidence h g2 ≤ gestureConfidence h g := by
  intro g2 hg2 hrg2
  rw [hsplit] at hg2
  rcases mem_split_cases hg2 with hmem | rfl | hmem
  · exact le_of_lt (hL1 g2 hmem hrg2)
  · exact le_refl _
  · exact hL2 g2 hmem hrg2

lemma recognizeGestureOrder_eq (ord : List (Fin 26)) (h : Hand) :
    recognizeGestureOrder ord h =
      if (ord.foldl (recognizeStep h) (none, 0)).2 > 0.7 then
        ord.foldl (recognizeStep h) (none, 0)
      else (none, 0) := rfl

/-- If no matching rule scores above 0.7, the engine rejects with
`(None, 0.0)`. -/
lemma recognize_reject (h : Hand)
    (hall : ∀ g, rule g h → gestureConfidence h g ≤ 0.7) :
    recognizeGesture h = (none, 0) := by
  unfold recognizeGesture
  rw [recognizeGestureOrder_eq]
  rcases foldl_recognizeStep_char h (List.finRange 26) (none, 0) with
    ⟨heq, _⟩ | ⟨L1, g, L2, hsplit, hrg, heq, hlt, hL1, hL2⟩
  · rw [heq]
    norm_num
  · rw [heq]
    exact if_neg (not_lt.mpr (hall g hrg))

/-- Soundness of acceptance: a returned `(some g, c)` means the rule for `g`
matched, `c` is its confidence, `c` clears the 0.7 threshold, no matching
rule scores more, and every matching rule with a smaller id scores strictly
less (the first-wins tie rule). -/
lemma recognize_sound {h : Hand} {g : Fin 26} {c : ℝ}
    (hrec : recognizeGesture h = (some g, c)) :
    rule g h ∧ c = gestureConfidence h g ∧ 0.7 < c ∧
    (∀ g2, rule g2 h → gestureConfidence h g2 ≤ c) ∧
    (∀ g2, g2 < g → rule g2 h → gestureConfidence h g2 < c) := by
  unfold recognizeGesture at hrec
  rw [recognizeGestureOrder_eq] at hrec
  rcases foldl_recognizeStep_char h (List.finRange 26) (none, 0) with
    ⟨heq, _⟩ | ⟨L1, g0, L2, hsplit, hrg, heq, hlt, hL1, hL2⟩
  · rw [heq] at hrec
    norm_num at hrec
    exact absurd hrec.1 (by simp)
  · rw [heq] at hrec
    by_cases hth : ((some g0, gestureConfidence h g0) : Option (Fin 26) × ℝ).2 > 0.7
    · rw [if_pos hth] at hrec
      have hg : g0 = g := by
        have h1 := congrArg Prod.fst hrec
        simpa using h1
      have hc : gestureConfidence h g0 = c := by
        have h1 := congrArg Prod.snd hrec
        simpa using h1
      subst hg
      refine ⟨hrg, hc.symm, hc ▸ hth, ?_, ?_⟩
      · intro g2 hrg2
        rw [← hc]
        exact bound_of_split hsplit hL1 hL2 g2 (hsplit ▸ List.mem_finRange g2) hrg2
      · intro g2 hlt2 hrg2
        rw [← hc]
        have hpw := List.pairwise_lt_finRange 26
        rw [hsplit] at hpw
        rcases mem_split_cases (hsplit ▸ List.mem_finRange g2) with hmem | rfl | hmem
        · exact hL1 g2 hmem hrg2
        · exact absurd hlt2 (lt_irrefl g2)
        · exact absurd hlt2 (not_lt.mpr (le_of_lt
            ((List.pairwise_cons.mp (List.pairwise_append.mp hpw).2.1).1 g2 hmem)))
    · rw [if_neg hth] at hrec
      exact absurd (congrArg Prod.fst hrec) (by simp)

/-- Completeness of acceptance: if some matching rule scores above 0.7, the
engine returns a gesture. -/
lemma recognize_accept {h : Hand} {g0 : Fin 26} (hrg : rule g0 h)
    (hgt : 0.7 < gestureConfidence h g0) :
    ∃ g c, recognizeGesture h = (some g, c) := by
  unfold recognizeGesture
  rw [recognizeGestureOrder_eq]
  rcases foldl_recognizeStep_char h (List.finRange 26) (none, 0) with
    ⟨heq, hb⟩ | ⟨L1, g1, L2, hsplit, hrg1, heq, hlt, hL1, hL2⟩
  · have h1 := hb g0 (List.mem_finRange g0) hrg
    norm_num at h1
    linarith
  · have hbig : (0.7 : ℝ) < gestureConfidence h g1 :=
      lt_of_lt_of_le hgt
        (bound_of_split hsplit hL1 hL2 g0 (hsplit ▸ List.mem_finRange g0) hrg)
    refine ⟨g1, gestureConfidence h g1, ?_⟩
    rw [heq]
    exact if_pos hbig

/-! ### Order invariance of the running maximum -/

lemma foldl_recognizeStep_snd (h : Hand) (L : List (Fin 26)) :
    ∀ acc : Option (Fin 26) × ℝ,
    (L.foldl (recognizeStep h) acc).2 =
      L.foldl (fun c g => if rule g h then max c (gestureConfidence h g) else c) acc.2 := by
  induction L with
  | nil => intro acc; rfl
  | cons a L ih =>
    intro acc
    rw [List.foldl_cons, List.foldl_cons, ih]
    congr 1
    by_cases hr : rule a h
    · by_cases hgt : gestureConfidence h a > acc.2
      · rw [recognizeStep_update hr acc hgt]
        simp [hr, max_eq_right (le_of_lt hgt)]
      · push_neg at hgt
        rw [recognizeStep_le hr acc hgt]
        simp [hr, max_eq_left hgt]
    · rw [recognizeStep_no_rule hr acc]
      simp [hr]

instance maxStep_rightCommutative (h : Hand) :
    RightCommutative (fun (c : ℝ) (g : Fin 26) =>
      if rule g h then max c (gestureConfidence h g) else c) := by
  refine ⟨fun b a1 a2 => ?_⟩
  by_cases h1 : rule a1 h <;> by_cases h2 : rule a2 h <;>
    simp [h1, h2, sup_right_comm]

/-- The running-maximum confidence computed by the selection loop does not
depend on the order in which the 26 rules are visited. -/
lemma recognizeOrder_snd_perm (h : Hand) {ord : List (Fin 26)}
    (hperm : ord.Perm (List.finRange 26)) :
    (recognizeGestureOrder ord h).2 = (recognizeGesture h).2 := by
  have hsnd : (ord.foldl (recognizeStep h) (none, 0)).2 =
      ((List.finRange 26).foldl (recognizeStep h) (none, 0)).2 := by
    rw [foldl_recognizeStep_snd, foldl_recognizeStep_snd]
    exact hperm.foldl_eq _
  unfold recognizeGesture
  rw [recognizeGestureOrder_eq, recognizeGestureOrder_eq]
  by_cases hth : ((List.finRange 26).foldl (recognizeStep h) (none, 0)).2 > 0.7
  · rw [if_pos hth, if_pos (hsnd ▸ hth)]
    exact hsnd
  · rw [if_neg hth, if_neg (by rw [hsnd]; exact hth)]

/-- When all matching rules have pairwise distinct confidences, the whole
selection result is order independent. -/
lemma recognizeOrder_eq_of_distinct (h : Hand) {ord : List (Fin 26)}
    (hperm : ord.Perm (List.finRange 26))
    (hdist : ∀ g1 g2, rule g1 h → rule g2 h →
      gestureConfidence h g1 = gestureConfidence h g2 → g1 = g2) :
    recognizeGestureOrder ord h = recognizeGesture h := by
  have hfold : (ord.foldl (recognizeStep h) (none, 0)).2 =
      ((List.finRange 26).foldl (recognizeStep h) (none, 0)).2 := by
    rw [foldl_recognizeStep_snd, foldl_recognizeStep_snd]
    exact hperm.foldl_eq _
  unfold recognizeGesture
  rw [recognizeGestureOrder_eq, recognizeGestureOrder_eq]
  rcases foldl_recognizeStep_char h ord (none, 0) with
    ⟨heq1, hb1⟩ | ⟨L1, g1, L2, hs1, hr1, heq1, hlt1, hL11, hL21⟩ <;>
    rcases foldl_recognizeStep_char h (List.finRange 26) (none, 0) with
      ⟨heq2, hb2⟩ | ⟨M1, g2, M2, hs2, hr2, heq2, hlt2, hM1, hM2⟩
  · rw [heq1, heq2]
  · rw [heq1, heq2] at hfold
    norm_num at hfold
    norm_num at hlt2
    linarith
  · rw [heq1, heq2] at hfold
    norm_num at hfold
    norm_num at hlt1
    linarith
  · rw [heq1, heq2] at hfold
    norm_num at hfold
    have hgg : g1 = g2 := hdist g1 g2 hr1 hr2 hfold
    rw [heq1, heq2, hgg]

/-! ### Closed form of the confidence scorer -/

lemma foldl_penalty (h : Hand) (g : Fin 26) (L : List (Fin 26)) (c0 : ℝ) :
    L.foldl (fun c og => if og ≠ g ∧ rule og h then c - 0.1 else c) c0
      = c0 - 0.1 * (L.countP fun og => decide (og ≠ g ∧ rule og h)) := by
  induction L generalizing c0 with
  | nil => simp
  | cons a L ih =>
    rw [List.foldl_cons, ih, List.countP_cons]
    by_cases hp : a ≠ g ∧ rule a h
    · have hd : (decide (a ≠ g ∧ rule a h)) = true := decide_eq_true_eq.mpr hp
      rw [if_pos hp, hd]
      simp only [if_true]
      push_cast
      ring
    · have hd : (decide (a ≠ g ∧ rule a h)) = false := by
        rw [decide_eq_false_iff_not]
        exact hp
      rw [if_neg hp, hd]
      simp

/-- Closed form of `_get_gesture_confidence`: base 0.75, plus reinforcement,
minus 0.1 for each other matching rule, plus the centering bonus, clamped. -/
lemma gestureConfidence_closed (h : Hand) (g : Fin 26) :
    gestureConfidence h g =
      max 0 (min (0.75 + reinforcement h g - 0.1 * (otherMatchCount h g : ℝ)
        + (if centered h then (0.05 : ℝ) else 0)) 1) := by
  simp only [gestureConfidence, otherMatchCount]
  rw [foldl_penalty]
  by_cases hc : centered h <;> simp [hc]

lemma gestureConfidence_nonneg (h : Hand) (g : Fin 26) :
    0 ≤ gestureConfidence h g :=
  le_max_left _ _

lemma gestureConfidence_le_one (h : Hand) (g : Fin 26) :
    gestureConfidence h g ≤ 1 := by
  simp only [gestureConfidence]
  exact max_le (by norm_num) (min_le_right _ _)

/-! ### Reduction lemmas for the finger predicate, and distance evaluation -/

lemma isFingerClosed_zero (h : Hand) : isFingerClosed h 0 ↔ (h 3).y > (h 4).y :=
  Iff.rfl

lemma isFingerClosed_one (h : Hand) : isFingerClosed h 1 ↔
    getDistance (h 5) (h 7) <
      (getDistance (h 5) (h 6) + getDistance (h 6) (h 7)) * 0.7 := Iff.rfl

lemma isFingerClosed_two (h : Hand) : isFingerClosed h 2 ↔
    getDistance (h 9) (h 11) <
      (getDistance (h 9) (h 10) + getDistance (h 10) (h 11)) * 0.7 := Iff.rfl

lemma isFingerClosed_three (h : Hand) : isFingerClosed h 3 ↔
    getDistance (h 13) (h 15) <
      (getDistance (h 13) (h 14) + getDistance (h 14) (h 15)) * 0.7 := Iff.rfl

lemma isFingerClosed_four (h : Hand) : isFingerClosed h 4 ↔
    getDistance (h 17) (h 19) <
      (getDistance (h 17) (h 18) + getDistance (h 18) (h 19)) * 0.7 := Iff.rfl

lemma getDistance_self (p : Landmark) : getDistance p p = 0 := by
  simp [getDistance]

lemma getDistance_vert (x y1 y2 z : ℝ) :
    getDistance ⟨x, y1, z⟩ ⟨x, y2, z⟩ = |y1 - y2| := by
  simp only [getDistance]
  rw [show (x - x) ^ 2 + (y1 - y2) ^ 2 + (z - z) ^ 2 = (y1 - y2) ^ 2 by ring,
    Real.sqrt_sq_eq_abs]

lemma getDistance_horiz (x1 x2 y z : ℝ) :
    getDistance ⟨x1, y, z⟩ ⟨x2, y, z⟩ = |x1 - x2| := by
  simp only [getDistance]
  rw [show (x1 - x2) ^ 2 + (y - y) ^ 2 + (z - z) ^ 2 = (x1 - x2) ^ 2 by ring,
    Real.sqrt_sq_eq_abs]

/-! ### A concrete hand on which the rules for both B and C match

All four non-thumb fingers are straight (collinear landmark triples), the
thumb tip sits 0.09 to the left of landmark 8, and the wrist is centered.
Rules 1 (B) and 2 (C) match and tie at confidence 0.85; no other rule
matches. -/

def tieHand : Hand := fun i =>
  match i.val with
  | 0 => ⟨0.5, 0.5, 0⟩
  | 4 => ⟨0.5, 0.5, 0⟩
  | 5 => ⟨0.1, 0.1, 0⟩
  | 6 => ⟨0.1, 0.2, 0⟩
  | 7 => ⟨0.1, 0.3, 0⟩
  | 8 => ⟨0.59, 0.5, 0⟩
  | 9 => ⟨0.2, 0.1, 0⟩
  | 10 => ⟨0.2, 0.2, 0⟩
  | 11 => ⟨0.2, 0.3, 0⟩
  | 12 => ⟨0.9, 0.9, 0⟩
  | 13 => ⟨0.3, 0.1, 0⟩
  | 14 => ⟨0.3, 0.2, 0⟩
  | 15 => ⟨0.3, 0.3, 0⟩
  | 16 => ⟨0.9, 0.8, 0⟩
  | 17 => ⟨0.4, 0.1, 0⟩
  | 18 => ⟨0.4, 0.2, 0⟩
  | 19 => ⟨0.4, 0.3, 0⟩
  | 20 => ⟨0.9, 0.7, 0⟩
  | _ => ⟨0, 0, 0⟩

lemma tie_d48 : getDistance (tieHand 4) (tieHand 8) = 0.09 := by
  rw [show tieHand 4 = ⟨0.5, 0.5, 0⟩ from rfl, show tieHand 8 = ⟨0.59, 0.5, 0⟩ from rfl,
    getDistance_horiz]
  norm_num

lemma tie_thumb_open : ¬ isFingerClosed tieHand 0 := by
  rw [isFingerClosed_zero]
  show ¬ ((0 : ℝ) > 0.5)
  norm_num

lemma tie_open1 : ¬ isFingerClosed tieHand 1 := by
  rw [isFingerClosed_one, show tieHand 5 = ⟨0.1, 0.1, 0⟩ from rfl,
    show tieHand 6 = ⟨0.1, 0.2, 0⟩ from rfl, show tieHand 7 = ⟨0.1, 0.3, 0⟩ from rfl,
    getDistance_vert, getDistance_vert, getDistance_vert]
  norm_num [abs]

lemma tie_open2 : ¬ isFingerClosed tieHand 2 := by
  rw [isFingerClosed_two, show tieHand 9 = ⟨0.2, 0.1, 0⟩ from rfl,
    show tieHand 10 = ⟨0.2, 0.2, 0⟩ from rfl, show tieHand 11 = ⟨0.2, 0.3, 0⟩ from rfl,
    getDistance_vert, getDistance_vert, getDistance_vert]
  norm_num [abs]

lemma tie_open3 : ¬ isFingerClosed tieHand 3 := by
  rw [isFingerClosed_three, show tieHand 13 = ⟨0.3, 0.1, 0⟩ from rfl,
    show tieHand 14 = ⟨0.3, 0.2, 0⟩ from rfl, show tieHand 15 = ⟨0.3, 0.3, 0⟩ from rfl,
    getDistance_vert, getDistance_vert, getDistance_vert]
  norm_num [abs]

lemma tie_open4 : ¬ isFingerClosed tieHand 4 := by
  rw [isFingerClosed_four, show tieHand 17 = ⟨0.4, 0.1, 0⟩ from rfl,
    show tieHand 18 = ⟨0.4, 0.2, 0⟩ from rfl, show tieHand 19 = ⟨0.4, 0.3, 0⟩ from rfl,
    getDistance_vert, getDistance_vert, getDistance_vert]
  norm_num [abs]

lemma tie_rule1 : rule 1 tieHand := ⟨tie_open1, tie_open2, tie_open3, tie_open4⟩

lemma tie_rule2 : rule 2 tieHand :=
  ⟨by rw [tie_d48]; norm_num, tie_open1, tie_open2, tie_open3, tie_open4⟩

lemma tie_not_rule0 : ¬ rule 0 tieHand := fun hr => tie_open1 hr.1

lemma tie_not_rule3 : ¬ rule 3 tieHand := fun hr => tie_open2 hr.2.1

lemma tie_not_rule4 : ¬ rule 4 tieHand := fun hr => tie_open1 hr.1

lemma tie_not_rule5 : ¬ rule 5 tieHand :=
  fun hr => absurd hr.1 (by rw [tie_d48]; norm_num)

lemma tie_not_rule6 : ¬ rule 6 tieHand := fun hr => tie_open2 hr.2.1

lemma tie_not_rule7 : ¬ rule 7 tieHand := fun hr => tie_open3 hr.2.2.1

lemma tie_not_rule8 : ¬ rule 8 tieHand := fun hr => tie_open1 hr.1

lemma tie_not_rule9 : ¬ rule 9 tieHand := fun hr => tie_open1 hr.1

lemma tie_not_rule10 : ¬ rule 10 tieHand := fun hr => tie_open3 hr.2.2.1

lemma tie_not_rule11 : ¬ rule 11 tieHand := fun hr => tie_open2 hr.2.1

lemma tie_not_rule12 : ¬ rule 12 tieHand := fun hr => tie_open1 hr.1

lemma tie_not_rule13 : ¬ rule 13 tieHand := fun hr => tie_open1 hr.1

lemma tie_not_rule14 : ¬ rule 14 tieHand := by
  show ¬ (getDistance (tieHand 4) (tieHand 8) < 0.08)
  rw [tie_d48]
  norm_num

lemma tie_not_rule15 : ¬ rule 15 tieHand := fun hr => tie_open2 hr.2.1

lemma tie_not_rule16 : ¬ rule 16 tieHand := fun hr => tie_open2 hr.2.1

lemma tie_not_rule17 : ¬ rule 17 tieHand := fun hr => tie_open3 hr.2.2.1

lemma tie_not_rule18 : ¬ rule 18 tieHand := fun hr => tie_open1 hr.1

lemma tie_not_rule19 : ¬ rule 19 tieHand := fun hr => tie_open1 hr.1

lemma tie_not_rule20 : ¬ rule 20 tieHand := fun hr => tie_open3 hr.2.2.1

lemma tie_not_rule21 : ¬ rule 21 tieHand := fun hr => tie_open3 hr.2.2.1

lemma tie_not_rule22 : ¬ rule 22 tieHand := fun hr => tie_open4 hr.2.2.2

lemma tie_not_rule23 : ¬ rule 23 tieHand := fun hr => tie_open2 hr.2.2.1

lemma tie_not_rule24 : ¬ rule 24 tieHand := fun hr => tie_open1 hr.1

lemma tie_not_rule25 : ¬ rule 25 tieHand := fun hr => tie_open2 hr.2.1

lemma tie_centered : centered tieHand := by
  unfold centered
  rw [show tieHand 0 = ⟨0.5, 0.5, 0⟩ from rfl]
  refine ⟨?_, ?_, ?_, ?_⟩ <;> norm_num

lemma finRange26 : List.finRange 26 =
    [0, 1, 2, 3, 4, 5, 6, 7, 8, 9, 10, 11, 12, 13, 14, 15, 16, 17, 18, 19,
     20, 21, 22, 23, 24, 25] := by decide

lemma tie_reinf1 : reinforcement tieHand 1 = 0.15 := by
  show (if extendedCount tieHand [1, 2, 3, 4] = 4 then (0.15 : ℝ) else -0.3) = 0.15
  rw [if_pos]
  unfold extendedCount
  simp [tie_open1, tie_open2, tie_open3, tie_open4]

lemma tie_reinf2 : reinforcement tieHand 2 = 0.15 := by
  show (if 0.05 < getDistance (tieHand 4) (tieHand 8) ∧
      getDistance (tieHand 4) (tieHand 8) < 0.15 then (0.15 : ℝ) else 0) = 0.15
  rw [tie_d48, if_pos (by norm_num)]

lemma tie_count1 : otherMatchCount tieHand 1 = 1 := by
  unfold otherMatchCount
  rw [finRange26]
  simp only [List.countP_cons, List.countP_nil, decide_eq_true_eq]
  norm_num [tie_not_rule0, tie_rule2, tie_not_rule3, tie_not_rule4, tie_not_rule5,
    tie_not_rule6, tie_not_rule7, tie_not_rule8, tie_not_rule9, tie_not_rule10,
    tie_not_rule11, tie_not_rule12, tie_not_rule13, tie_not_rule14, tie_not_rule15,
    tie_not_rule16, tie_not_rule17, tie_not_rule18, tie_not_rule19, tie_not_rule20,
    tie_not_rule21, tie_not_rule22, tie_not_rule23, tie_not_rule24, tie_not_rule25]
  decide

lemma tie_count2 : otherMatchCount tieHand 2 = 1 := by
  unfold otherMatchCount
  rw [finRange26]
  simp only [List.countP_cons, List.countP_nil, decide_eq_true_eq]
  norm_num [tie_not_rule0, tie_rule1, tie_not_rule3, tie_not_rule4, tie_not_rule5,
    tie_not_rule6, tie_not_rule7, tie_not_rule8, tie_not_rule9, tie_not_rule10,
    tie_not_rule11, tie_not_rule12, tie_not_rule13, tie_not_rule14, tie_not_rule15,
    tie_not_rule16, tie_not_rule17, tie_not_rule18, tie_not_rule19, tie_not_rule20,
    tie_not_rule21, tie_not_rule22, tie_not_rule23, tie_not_rule24, tie_not_rule25]
  decide

lemma tie_conf1 : gestureConfidence tieHand 1 = 0.85 := by
  rw [gestureConfidence_closed, tie_reinf1, tie_count1, if_pos tie_centered]
  norm_num

lemma tie_conf2 : gestureConfidence tieHand 2 = 0.85 := by
  rw [gestureConfidence_closed, tie_reinf2, tie_count2, if_pos tie_centered]
  norm_num

/-- On `tieHand` the fixed-order selector picks B (id 1), the first of the
two letters tied at confidence 0.85. -/
lemma recognize_tieHand : recognizeGesture tieHand = (some 1, 0.85) := by
  unfold recognizeGesture
  rw [recognizeGestureOrder_eq, finRange26]
  simp only [List.foldl_cons, List.foldl_nil]
  rw [recognizeStep_no_rule tie_not_rule0,
    recognizeStep_update tie_rule1 _ (by rw [tie_conf1]; norm_num),
    recognizeStep_le tie_rule2 _ (by rw [tie_conf2]; show (0.85 : ℝ) ≤ (some (1 : Fin 26), gestureConfidence tieHand 1).2; rw [show (some (1 : Fin 26), gestureConfidence tieHand 1).2 = gestureConfidence tieHand 1 from rfl, tie_conf1]),
    recognizeStep_no_rule tie_not_rule3, recognizeStep_no_rule tie_not_rule4,
    recognizeStep_no_rule tie_not_rule5, recognizeStep_no_rule tie_not_rule6,
    recognizeStep_no_rule tie_not_rule7, recognizeStep_no_rule tie_not_rule8,
    recognizeStep_no_rule tie_not_rule9, recognizeStep_no_rule tie_not_rule10,
    recognizeStep_no_rule tie_not_rule11, recognizeStep_no_rule tie_not_rule12,
    recognizeStep_no_rule tie_not_rule13, recognizeStep_no_rule tie_not_rule14,
    recognizeStep_no_rule tie_not_rule15, recognizeStep_no_rule tie_not_rule16,
    recognizeStep_no_rule tie_not_rule17, recognizeStep_no_rule tie_not_rule18,
    recognizeStep_no_rule tie_not_rule19, recognizeStep_no_rule tie_not_rule20,
    recognizeStep_no_rule tie_not_rule21, recognizeStep_no_rule tie_not_rule22,
    recognizeStep_no_rule tie_not_rule23, recognizeStep_no_rule tie_not_rule24,
    recognizeStep_no_rule tie_not_rule25, tie_conf1]
  norm_num

/-- The evaluation order with ids 1 and 2 swapped. -/
def swappedOrder : List (Fin 26) :=
  [0, 2, 1, 3, 4, 5, 6, 7, 8, 9, 10, 11, 12, 13, 14, 15, 16, 17, 18, 19,
   20, 21, 22, 23, 24, 25]

lemma swappedOrder_perm : swappedOrder.Perm (List.finRange 26) := by
  rw [finRange26]
  decide

/-- Visiting rule C (id 2) before rule B (id 1) makes the selector pick C on
the very same hand. -/
lemma recognize_tieHand_swapped :
    recognizeGestureOrder swappedOrder tieHand = (some 2, 0.85) := by
  rw [recognizeGestureOrder_eq]
  show (if ((swappedOrder.foldl (recognizeStep tieHand) (none, 0)).2 > 0.7) then _ else _) = _
  rw [show swappedOrder = [0, 2, 1, 3, 4, 5, 6, 7, 8, 9, 10, 11, 12, 13, 14, 15,
    16, 17, 18, 19, 20, 21, 22, 23, 24, 25] from rfl]
  simp only [List.foldl_cons, List.foldl_nil]
  rw [recognizeStep_no_rule tie_not_rule0,
    recognizeStep_update tie_rule2 _ (by rw [tie_conf2]; norm_num),
    recognizeStep_le tie_rule1 _ (by rw [tie_conf1]; show (0.85 : ℝ) ≤ (some (2 : Fin 26), gestureConfidence tieHand 2).2; rw [show (some (2 : Fin 26), gestureConfidence tieHand 2).2 = gestureConfidence tieHand 2 from rfl, tie_conf2]),
    recognizeStep_no_rule tie_not_rule3, recognizeStep_no_rule tie_not_rule4,
    recognizeStep_no_rule tie_not_rule5, recognizeStep_no_rule tie_not_rule6,
    recognizeStep_no_rule tie_not_rule7, recognizeStep_no_rule tie_not_rule8,
    recognizeStep_no_rule tie_not_rule9, recognizeStep_no_rule tie_not_rule10,
    recognizeStep_no_rule tie_not_rule11, recognizeStep_no_rule tie_not_rule12,
    recognizeStep_no_rule tie_not_rule13, recognizeStep_no_rule tie_not_rule14,
    recognizeStep_no_rule tie_not_rule15, recognizeStep_no_rule tie_not_rule16,
    recognizeStep_no_rule tie_not_rule17, recognizeStep_no_rule tie_not_rule18,
    recognizeStep_no_rule tie_not_rule19, recognizeStep_no_rule tie_not_rule20,
    recognizeStep_no_rule tie_not_rule21, recognizeStep_no_rule tie_not_rule22,
    recognizeStep_no_rule tie_not_rule23, recognizeStep_no_rule tie_not_rule24,
    recognizeStep_no_rule tie_not_rule25, tie_conf2]
  norm_num

/-! ### A concrete hand matching no rule

Finger 1 is curled, finger 2 is straight, fingers 3 and 4 are curled, the
thumb comparison fails, and the thumb tip is far from landmark 8: each of
the 26 rules has at least one failing conjunct. -/

def noneHand : Hand := fun i =>
  match i.val with
  | 0 => ⟨0.5, 0.5, 0⟩
  | 4 => ⟨0.9, 0.5, 0⟩
  | 5 => ⟨0.1, 0.5, 0⟩
  | 6 => ⟨0.1, 0.6, 0⟩
  | 7 => ⟨0.1, 0.51, 0⟩
  | 8 => ⟨0.1, 0.5, 0⟩
  | 9 => ⟨0.2, 0.5, 0⟩
  | 10 => ⟨0.2, 0.6, 0⟩
  | 11 => ⟨0.2, 0.7, 0⟩
  | 12 => ⟨0.9, 0.9, 0⟩
  | 13 => ⟨0.3, 0.5, 0⟩
  | 14 => ⟨0.3, 0.6, 0⟩
  | 15 => ⟨0.3, 0.51, 0⟩
  | 16 => ⟨0.9, 0.8, 0⟩
  | 17 => ⟨0.4, 0.5, 0⟩
  | 18 => ⟨0.4, 0.6, 0⟩
  | 19 => ⟨0.4, 0.51, 0⟩
  | 20 => ⟨0.9, 0.7, 0⟩
  | _ => ⟨0, 0, 0⟩

lemma none_d48 : getDistance (noneHand 4) (noneHand 8) = 0.8 := by
  rw [show noneHand 4 = ⟨0.9, 0.5, 0⟩ from rfl, show noneHand 8 = ⟨0.1, 0.5, 0⟩ from rfl,
    getDistance_horiz]
  norm_num

lemma none_closed1 : isFingerClosed noneHand 1 := by
  rw [isFingerClosed_one, show noneHand 5 = ⟨0.1, 0.5, 0⟩ from rfl,
    show noneHand 6 = ⟨0.1, 0.6, 0⟩ from rfl, show noneHand 7 = ⟨0.1, 0.51, 0⟩ from rfl,
    getDistance_vert, getDistance_vert, getDistance_vert]
  norm_num [abs]

lemma none_open2 : ¬ isFingerClosed noneHand 2 := by
  rw [isFingerClosed_two, show noneHand 9 = ⟨0.2, 0.5, 0⟩ from rfl,
    show noneHand 10 = ⟨0.2, 0.6, 0⟩ from rfl, show noneHand 11 = ⟨0.2, 0.7, 0⟩ from rfl,
    getDistance_vert, getDistance_vert, getDistance_vert]
  norm_num [abs]

lemma none_closed3 : isFingerClosed noneHand 3 := by
  rw [isFingerClosed_three, show noneHand 13 = ⟨0.3, 0.5, 0⟩ from rfl,
    show noneHand 14 = ⟨0.3, 0.6, 0⟩ from rfl, show noneHand 15 = ⟨0.3, 0.51, 0⟩ from rfl,
    getDistance_vert, getDistance_vert, getDistance_vert]
  norm_num [abs]

lemma none_closed4 : isFingerClosed noneHand 4 := by
  rw [isFingerClosed_four, show noneHand 17 = ⟨0.4, 0.5, 0⟩ from rfl,
    show noneHand 18 = ⟨0.4, 0.6, 0⟩ from rfl, show noneHand 19 = ⟨0.4, 0.51, 0⟩ from rfl,
    getDistance_vert, getDistance_vert, getDistance_vert]
  norm_num [abs]

lemma noneHand_no_rule : ∀ g : Fin 26, ¬ rule g noneHand := by
  intro g
  fin_cases g
  · exact fun hr => none_open2 hr.2.1
  · exact fun hr => hr.1 none_closed1
  · exact fun hr => hr.2.1 none_closed1
  · exact fun hr => hr.1 none_closed1
  · exact fun hr => none_open2 hr.2.1
  · exact fun hr => hr.2.2.1 none_closed3
  · exact fun hr => hr.1 none_closed1
  · exact fun hr => hr.1 none_closed1
  · exact fun hr => none_open2 hr.2.1
  · exact fun hr => none_open2 hr.2.1
  · exact fun hr => hr.1 none_closed1
  · exact fun hr => hr.1 none_closed1
  · exact fun hr => none_open2 hr.2.1
  · exact fun hr => none_open2 hr.2.1
  · exact fun hr => absurd (show getDistance (noneHand 4) (noneHand 8) < 0.08 from hr)
      (by rw [none_d48]; norm_num)
  · exact fun hr => hr.1 none_closed1
  · exact fun hr => hr.1 none_closed1
  · exact fun hr => hr.1 none_closed1
  · exact fun hr => none_open2 hr.2.1
  · exact fun hr => none_open2 hr.2.1
  · exact fun hr => hr.1 none_closed1
  · exact fun hr => hr.1 none_closed1
  · exact fun hr => hr.1 none_closed1
  · exact fun hr => none_open2 hr.2.2.1
  · exact fun hr => none_open2 hr.2.1
  · exact fun hr => hr.1 none_closed1

/-- On `noneHand` the engine rejects. -/
lemma recognize_noneHand : recognizeGesture noneHand = (none, 0) :=
  recognize_reject noneHand (fun g hr => absurd hr (noneHand_no_rule g))

/-! ### The degenerate hand: all landmarks at the same point -/

def constHand (p : Landmark) : Hand := fun _ => p

lemma constHand_not_closed (p : Landmark) : ∀ f : Fin 5, ¬ isFingerClosed (constHand p) f := by
  intro f
  fin_cases f
  · exact fun hcl => lt_irrefl p.y (show p.y < p.y from hcl)
  all_goals
    refine fun hcl => absurd
      (show getDistance p p < (getDistance p p + getDistance p p) * 0.7 from hcl) ?_
    rw [getDistance_self]
    norm_num

lemma constHand_not_ruleE (p : Landmark) : ¬ rule 4 (constHand p) :=
  fun hr => constHand_not_closed p 1 hr.1

lemma constHand_ruleB (p : Landmark) : rule 1 (constHand p) :=
  ⟨constHand_not_closed p 1, constHand_not_closed p 2,
   constHand_not_closed p 3, constHand_not_closed p 4⟩

/-! ### Twin rules: identical predicates at two ids -/

lemma rule_8_iff_9 (h : Hand) : rule 8 h ↔ rule 9 h := Iff.rfl

lemma rule_15_iff_25 (h : Hand) : rule 15 h ↔ rule 25 h := Iff.rfl

lemma reinforcement_8 (h : Hand) : reinforcement h 8 = 0 := rfl

lemma reinforcement_9 (h : Hand) : reinforcement h 9 = 0 := rfl

lemma reinforcement_15 (h : Hand) : reinforcement h 15 = 0 := rfl

lemma reinforcement_25 (h : Hand) : reinforcement h 25 = 0 := rfl

lemma countP_ne_and (h : Hand) (a : Fin 26) (L : List (Fin 26)) (hnd : L.Nodup)
    (hmem : a ∈ L) :
    L.countP (fun og => decide (og ≠ a ∧ rule og h)) + (if rule a h then 1 else 0)
      = L.countP (fun og => decide (rule og h)) := by
  induction L with
  | nil => cases hmem
  | cons b L ih =>
    rw [List.countP_cons, List.countP_cons]
    rcases List.mem_cons.mp hmem with rfl | hmem2
    · have hnotin : a ∉ L := (List.nodup_cons.mp hnd).1
      have hcongr : L.countP (fun og => decide (og ≠ a ∧ rule og h))
          = L.countP (fun og => decide (rule og h)) := by
        refine List.countP_congr ?_
        intro x hx
        simp only [decide_eq_true_eq]
        exact and_iff_right_iff_imp.mpr (fun _ => (fun (hxa : x = a) => hnotin (hxa ▸ hx)))
      have hself : (decide (a ≠ a ∧ rule a h)) = false := by
        rw [decide_eq_false_iff_not]
        rintro ⟨hne, -⟩
        exact hne rfl
      rw [hcongr, hself]
      by_cases hra : rule a h
      · have hdec : (decide (rule a h)) = true := decide_eq_true_eq.mpr hra
        rw [hdec, if_pos hra]
        simp
      · have hdec : (decide (rule a h)) = false := by
          rw [decide_eq_false_iff_not]; exact hra
        rw [hdec, if_neg hra]
        simp
    · have hba : b ≠ a := fun hba => (List.nodup_cons.mp hnd).1 (hba ▸ hmem2)
      have hb : (decide (b ≠ a ∧ rule b h)) = (decide (rule b h)) :=
        decide_eq_decide.mpr (and_iff_right_iff_imp.mpr (fun _ => hba))
      rw [hb]
      have ihh := ih (List.nodup_cons.mp hnd).2 hmem2
      omega

lemma otherMatchCount_eq_of_iff (h : Hand) (a b : Fin 26)
    (hiff : rule a h ↔ rule b h) : otherMatchCount h a = otherMatchCount h b := by
  have ka := countP_ne_and h a (List.finRange 26) (List.nodup_finRange 26)
    (List.mem_finRange a)
  have kb := countP_ne_and h b (List.finRange 26) (List.nodup_finRange 26)
    (List.mem_finRange b)
  have hii : (if rule a h then 1 else 0) = (if rule b h then 1 else 0) := by
    by_cases hra : rule a h
    · rw [if_pos hra, if_pos (hiff.mp hra)]
    · rw [if_neg hra, if_neg (fun hrb => hra (hiff.mpr hrb))]
  unfold otherMatchCount
  omega

lemma gestureConfidence_eq_of_twin (h : Hand) (a b : Fin 26)
    (hiff : rule a h ↔ rule b h) (hre : reinforcement h a = reinforcement h b) :
    gestureConfidence h a = gestureConfidence h b := by
  rw [gestureConfidence_closed, gestureConfidence_closed, hre,
    otherMatchCount_eq_of_iff h a b hiff]

/-- The selector can never return the later member of a pair of ids whose
rules agree extensionally and whose confidences agree: the earlier id would
have had to score strictly less than itself. -/
lemma recognize_not_later_twin {h : Hand} {a b : Fin 26} (hab : a < b)
    (hiff : rule a h ↔ rule b h)
    (hconf : gestureConfidence h a = gestureConfidence h b) :
    (recognizeGesture h).1 ≠ some b := by
  intro heq
  rcases hrec : recognizeGesture h with ⟨r1, r2⟩
  rw [hrec] at heq
  have heq2 : r1 = some b := heq
  subst heq2
  obtain ⟨hr, hc, hth, hle, hfirst⟩ := recognize_sound hrec
  have hra : rule a h := hiff.mpr hr
  have hlt := hfirst a hab hra
  rw [hconf, ← hc] at hlt
  exact lt_irrefl _ hlt

/-! ### List model with Python-style index errors

These definitions (suffix `L`) re-embed the engine over a plain list of
landmarks.  An out-of-range index raises `IndexError` in Python; here every
lookup is `Option`-valued and `none` propagates like the exception, stopping
at the `try/except` boundaries of `_recognize_gesture` (whole rule or
confidence call) and of the ambiguity-penalty loop (single other rule). -/

/-- Short-circuit conjunction in the exception monad: Python `and` does not
evaluate its right operand when the left one is false. -/
def andThenB (m : Option Bool) (k : Unit → Option Bool) : Option Bool :=
  match m with
  | none => none
  | some false => some false
  | some true => k ()

/-- Negation under the exception monad (`not` applied to a rule subterm). -/
def notB (m : Option Bool) : Option Bool := m.map (! ·)

/-- `_is_finger_closed` over a raw landmark list. -/
noncomputable def isFingerClosedL (L : List Landmark) (f : ℕ) : Option Bool :=
  if f = 0 then do
    let p3 ← L[3]?
    let p4 ← L[4]?
    pure (decide (p3.y > p4.y))
  else do
    let base ← L[f * 4 + 1]?
    let mid ← L[f * 4 + 2]?
    let tip ← L[f * 4 + 3]?
    pure (decide (getDistance base tip <
      (getDistance base mid + getDistance mid tip) * 0.7))

/-- `_get_distance(landmarks[i], landmarks[j]) < t` over a raw list. -/
noncomputable def distLtL (L : List Landmark) (i j : ℕ) (t : ℝ) : Option Bool := do
  let p ← L[i]?
  let q ← L[j]?
  pure (decide (getDistance p q < t))

/-- `_get_distance(landmarks[i], landmarks[j]) > t` over a raw list. -/
noncomputable def distGtL (L : List Landmark) (i j : ℕ) (t : ℝ) : Option Bool := do
  let p ← L[i]?
  let q ← L[j]?
  pure (decide (getDistance p q > t))

/-- The 26 rule lambdas over a raw landmark list, with Python short-circuit
evaluation of `and`. -/
noncomputable def ruleL (g : ℕ) (L : List Landmark) : Option Bool :=
  match g with
  | 0 => andThenB (isFingerClosedL L 1) fun _ =>
      andThenB (isFingerClosedL L 2) fun _ =>
      andThenB (isFingerClosedL L 3) fun _ =>
      andThenB (isFingerClosedL L 4) fun _ =>
      notB (isFingerClosedL L 0)
  | 1 => andThenB (notB (isFingerClosedL L 1)) fun _ =>
      andThenB (notB (isFingerClosedL L 2)) fun _ =>
      andThenB (notB (isFingerClosedL L 3)) fun _ =>
      notB (isFingerClosedL L 4)
  | 2 => andThenB (distLtL L 4 8 0.1) fun _ =>
      andThenB (notB (isFingerClosedL L 1)) fun _ =>
      andThenB (notB (isFingerClosedL L 2)) fun _ =>
      andThenB (notB (isFingerClosedL L 3)) fun _ =>
      notB (isFingerClosedL L 4)
  | 3 => andThenB (notB (isFingerClosedL L 1)) fun _ =>
      andThenB (isFingerClosedL L 2) fun _ =>
      andThenB (isFingerClosedL L 3) fun _ =>
      isFingerClosedL L 4
  | 4 => andThenB (isFingerClosedL L 1) fun _ =>
      andThenB (isFingerClosedL L 2) fun _ =>
      andThenB (isFingerClosedL L 3) fun _ =>
      isFingerClosedL L 4
  | 5 => andThenB (distLtL L 4 8 0.05) fun _ =>
      andThenB (notB (isFingerClosedL L 2)) fun _ =>
      andThenB (notB (isFingerClosedL L 3)) fun _ =>
      notB (isFingerClosedL L 4)
  | 6 => andThenB (notB (isFingerClosedL L 1)) fun _ =>
      andThenB (isFingerClosedL L 2) fun _ =>
      andThenB (isFingerClosedL L 3) fun _ =>
      andThenB (isFingerClosedL L 4) fun _ =>
      notB (isFingerClosedL L 0)
  | 7 => andThenB (notB (isFingerClosedL L 1)) fun _ =>
      andThenB (notB (isFingerClosedL L 2)) fun _ =>
      andThenB (isFingerClosedL L 3) fun _ =>
      isFingerClosedL L 4
  | 8 => andThenB (isFingerClosedL L 1) fun _ =>
      andThenB (isFingerClosedL L 2) fun _ =>
      andThenB (isFingerClosedL L 3) fun _ =>
      notB (isFingerClosedL L 4)
  | 9 => andThenB (isFingerClosedL L 1) fun _ =>
      andThenB (isFingerClosedL L 2) fun _ =>
      andThenB (isFingerClosedL L 3) fun _ =>
      notB (isFingerClosedL L 4)
  | 10 => andThenB (notB (isFingerClosedL L 1)) fun _ =>
      andThenB (notB (isFingerClosedL L 2)) fun _ =>
      andThenB (isFingerClosedL L 3) fun _ =>
      andThenB (isFingerClosedL L 4) fun _ =>
      distLtL L 4 10 0.1
  | 11 => andThenB (notB (isFingerClosedL L 1)) fun _ =>
      andThenB (isFingerClosedL L 2) fun _ =>
      andThenB (isFingerClosedL L 3) fun _ =>
      andThenB (isFingerClosedL L 4) fun _ => do
        let p4 ← L[4]?
        let p3 ← L[3]?
        pure (decide (p4.x > p3.x))
  | 12 => andThenB (isFingerClosedL L 1) fun _ =>
      andThenB (isFingerClosedL L 2) fun _ =>
      andThenB (isFingerClosedL L 3) fun _ => do
        let p4 ← L[4]?
        let p5 ← L[5]?
        pure (decide (p4.x < p5.x))
  | 13 => andThenB (isFingerClosedL L 1) fun _ =>
      andThenB (isFingerClosedL L 2) fun _ =>
      andThenB (isFingerClosedL L 3) fun _ =>
      andThenB (isFingerClosedL L 4) fun _ => do
        let p4 ← L[4]?
        let p9 ← L[9]?
        pure (decide (p4.x < p9.x))
  | 14 => distLtL L 4 8 0.08
  | 15 => andThenB (notB (isFingerClosedL L 1)) fun _ =>
      andThenB (isFingerClosedL L 2) fun _ =>
      andThenB (isFingerClosedL L 3) fun _ =>
      andThenB (isFingerClosedL L 4) fun _ => do
        let p8 ← L[8]?
        let p5 ← L[5]?
        pure (decide (p8.y > p5.y))
  | 16 => andThenB (notB (isFingerClosedL L 1)) fun _ =>
      andThenB (isFingerClosedL L 2) fun _ =>
      andThenB (isFingerClosedL L 3) fun _ =>
      andThenB (notB (isFingerClosedL L 4)) fun _ => do
        let p8 ← L[8]?
        let p5 ← L[5]?
        pure (decide (p8.y > p5.y))
  | 17 => andThenB (notB (isFingerClosedL L 1)) fun _ =>
      andThenB (notB (isFingerClosedL L 2)) fun _ =>
      andThenB (isFingerClosedL L 3) fun _ =>
      andThenB (isFingerClosedL L 4) fun _ =>
      distLtL L 8 12 0.1
  | 18 => andThenB (isFingerClosedL L 1) fun _ =>
      andThenB (isFingerClosedL L 2) fun _ =>
      andThenB (isFingerClosedL L 3) fun _ =>
      andThenB (isFingerClosedL L 4) fun _ => do
        let p4 ← L[4]?
        let p8 ← L[8]?
        pure (decide (p4.z < p8.z))
  | 19 => andThenB (isFingerClosedL L 1) fun _ =>
      andThenB (isFingerClosedL L 2) fun _ =>
      andThenB (isFingerClosedL L 3) fun _ =>
      andThenB (isFingerClosedL L 4) fun _ =>
      andThenB (do
        let p4 ← L[4]?
        let p6 ← L[6]?
        pure (decide (p4.x > p6.x))) fun _ => do
        let p4 ← L[4]?
        let p10 ← L[10]?
        pure (decide (p4.x < p10.x))
  | 20 => andThenB (notB (isFingerClosedL L 1)) fun _ =>
      andThenB (notB (isFingerClosedL L 2)) fun _ =>
      andThenB (isFingerClosedL L 3) fun _ =>
      andThenB (isFingerClosedL L 4) fun _ =>
      distLtL L 8 12 0.15
  | 21 => andThenB (notB (isFingerClosedL L 1)) fun _ =>
      andThenB (notB (isFingerClosedL L 2)) fun _ =>
      andThenB (isFingerClosedL L 3) fun _ =>
      andThenB (isFingerClosedL L 4) fun _ =>
      distGtL L 8 12 0.15
  | 22 => andThenB (notB (isFingerClosedL L 1)) fun _ =>
      andThenB (notB (isFingerClosedL L 2)) fun _ =>
      andThenB (notB (isFingerClosedL L 3)) fun _ =>
      isFingerClosedL L 4
  | 23 => andThenB (do
        let p8 ← L[8]?
        let p7 ← L[7]?
        pure (decide (p8.y > p7.y))) fun _ =>
      andThenB (do
        let p7 ← L[7]?
        let p6 ← L[6]?
        pure (decide (p7.y < p6.y))) fun _ =>
      andThenB (isFingerClosedL L 2) fun _ =>
      andThenB (isFingerClosedL L 3) fun _ =>
      isFingerClosedL L 4
  | 24 => andThenB (isFingerClosedL L 1) fun _ =>
      andThenB (isFingerClosedL L 2) fun _ =>
      andThenB (isFingerClosedL L 3) fun _ =>
      andThenB (notB (isFingerClosedL L 4)) fun _ =>
      notB (isFingerClosedL L 0)
  | 25 => andThenB (notB (isFingerClosedL L 1)) fun _ =>
      andThenB (isFingerClosedL L 2) fun _ =>
      andThenB (isFingerClosedL L 3) fun _ =>
      andThenB (isFingerClosedL L 4) fun _ => do
        let p8 ← L[8]?
        let p5 ← L[5]?
        pure (decide (p8.y > p5.y))
  | _ => none

/-- The `extended_fingers` counting loop over a raw list. -/
noncomputable def extendedCountL (L : List Landmark) (fingers : List ℕ) : Option ℕ :=
  fingers.foldlM (fun n i => do
    let b ← isFingerClosedL L i
    pure (if b then n else n + 1)) 0

/-- The reinforcement chain of `_get_gesture_confidence` over a raw list. -/
noncomputable def reinforcementL (L : List Landmark) (g : ℕ) : Option ℝ :=
  match g with
  | 0 => do
      let p4 ← L[4]?
      let p3 ← L[3]?
      pure (if p4.y < p3.y - (0.1 : ℝ) then (0.15 : ℝ) else 0)
  | 1 => do
      let n ← extendedCountL L [1, 2, 3, 4]
      pure (if n = 4 then (0.15 : ℝ) else -0.3)
  | 2 => do
      let p4 ← L[4]?
      let p8 ← L[8]?
      pure (if 0.05 < getDistance p4 p8 ∧ getDistance p4 p8 < 0.15
        then (0.15 : ℝ) else 0)
  | 3 => do
      let b ← andThenB (notB (isFingerClosedL L 1)) fun _ => isFingerClosedL L 2
      pure (if b then (0.15 : ℝ) else 0)
  | 11 => do
      let b ← andThenB (notB (isFingerClosedL L 1)) fun _ => do
        let p4 ← L[4]?
        let p3 ← L[3]?
        pure (decide (p4.x > p3.x))
      pure (if b then (0.15 : ℝ) else 0)
  | 14 => do
      let p4 ← L[4]?
      let p8 ← L[8]?
      pure (if 0.05 < getDistance p4 p8 ∧ getDistance p4 p8 < 0.1
        then (0.15 : ℝ) else 0)
  | 21 => do
      let b ← andThenB (notB (isFingerClosedL L 1)) fun _ =>
        notB (isFingerClosedL L 2)
      if b then do
        let b2 ← distGtL L 8 12 0.2
        pure (if b2 then (0.15 : ℝ) else 0)
      else pure 0
  | 22 => do
      let n ← extendedCountL L [1, 2, 3]
      pure (if n = 3 then (0.15 : ℝ) else 0)
  | 24 => do
      let b ← andThenB (notB (isFingerClosedL L 4)) fun _ =>
        notB (isFingerClosedL L 0)
      pure (if b then (0.15 : ℝ) else 0)
  | _ => pure 0

/-- `_get_gesture_confidence` over a raw list.  The ambiguity-penalty loop
has its own per-rule `try/except`, so an erroring other rule contributes no
penalty; the reinforcement and the wrist access can still raise. -/
noncomputable def gestureConfidenceL (L : List Landmark) (g : ℕ) : Option ℝ := do
  let r ← reinforcementL L g
  let c1 : ℝ := 0.75 + r
  let c2 : ℝ := (List.range 26).foldl (fun c og =>
    if og ≠ g then
      (match ruleL og L with
       | some true => c - 0.1
       | _ => c)
    else c) c1
  let p0 ← L[0]?
  let c3 : ℝ :=
    if (0.2 : ℝ) < p0.x ∧ p0.x < (0.8 : ℝ) ∧ (0.2 : ℝ) < p0.y ∧ p0.y < (0.8 : ℝ) then c2 + 0.05 else c2
  pure (max 0 (min c3 1))

/-- One iteration of the `_recognize_gesture` loop over a raw list: the
`try/except` turns an error in the rule or in the confidence computation
into a skip, so a single failing rule never aborts the remaining ones. -/
noncomputable def recognizeStepL (L : List Landmark) (acc : Option ℕ × ℝ) (g : ℕ) :
    Option ℕ × ℝ :=
  match ruleL g L with
  | some true =>
    (match gestureConfidenceL L g with
     | some c => if c > acc.2 then (some g, c) else acc
     | none => acc)
  | _ => acc

/-- `_recognize_gesture` over a raw list. -/
noncomputable def recognizeGestureL (L : List Landmark) : Option ℕ × ℝ :=
  let best := (List.range 26).foldl (recognizeStepL L) (none, 0)
  if best.2 > 0.7 then best else (none, 0)

/-- Per-rule error isolation: a rule that raises contributes nothing to the
selection loop, which continues with the next gesture id. -/
lemma recognizeStepL_error (L : List Landmark) (acc : Option ℕ × ℝ) (g : ℕ)
    (herr : ruleL g L = none) : recognizeStepL L acc g = acc := by
  unfold recognizeStepL
  rw [herr]

lemma recognizeStepL_false (L : List Landmark) (acc : Option ℕ × ℝ) (g : ℕ)
    (hf : ruleL g L = some false) : recognizeStepL L acc g = acc := by
  unfold recognizeStepL
  rw [hf]

lemma foldl_recognizeStepL_le (L : List Landmark) (G : List ℕ)
    (hG : ∀ g ∈ G, ∀ c, ruleL g L = some true → gestureConfidenceL L g = some c →
      c ≤ 0.7) :
    ∀ acc : Option ℕ × ℝ, acc.2 ≤ 0.7 → (G.foldl (recognizeStepL L) acc).2 ≤ 0.7 := by
  induction G with
  | nil => exact fun acc hacc => hacc
  | cons g G ih =>
    intro acc hacc
    rw [List.foldl_cons]
    refine ih (fun g2 hg2 => hG g2 (List.mem_cons_of_mem g hg2)) _ ?_
    unfold recognizeStepL
    rcases hr : ruleL g L with - | b
    · exact hacc
    · rcases b with - | -
      · exact hacc
      · rcases hc : gestureConfidenceL L g with - | c
        · exact hacc
        · show (if c > acc.2 then ((some g, c) : Option ℕ × ℝ) else acc).2 ≤ 0.7
          by_cases hgt : c > acc.2
          · rw [if_pos hgt]
            exact hG g (List.mem_cons_self g G) c hr hc
          · rw [if_neg hgt]
            exact hacc

/-- If no rule evaluates successfully to a match whose confidence clears
0.7, the list-model engine returns `(None, 0.0)`: in particular every rule
that raises is treated as a non-match, never as a fatal error. -/
lemma recognizeL_reject (L : List Landmark)
    (hall : ∀ g, g < 26 → ∀ c, ruleL g L = some true →
      gestureConfidenceL L g = some c → c ≤ 0.7) :
    recognizeGestureL L = (none, 0) := by
  unfold recognizeGestureL
  have hle := foldl_recognizeStepL_le L (List.range 26)
    (fun g hg => hall g (List.mem_range.mp hg)) (none, 0) (by norm_num)
  rw [if_neg (not_lt.mpr hle)]

lemma ruleL_nil (g : ℕ) (hg : g < 26) : ruleL g [] = none := by
  interval_cases g <;> rfl

/-! ### A malformed 9-landmark input on which the engine still accepts -/

def badPt : Landmark := ⟨0.5, 0.5, 0⟩

/-- Nine identical landmarks: far fewer than the 21 the engine expects. -/
def badL : List Landmark :=
  [badPt, badPt, badPt, badPt, badPt, badPt, badPt, badPt, badPt]

lemma badL_closed0 : isFingerClosedL badL 0 = some false := by
  norm_num [isFingerClosedL, badL, badPt]

lemma badL_closed1 : isFingerClosedL badL 1 = some false := by
  norm_num [isFingerClosedL, badL, getDistance_self]

lemma badL_closed2 : isFingerClosedL badL 2 = none := by
  norm_num [isFingerClosedL, badL]

lemma badL_rule0 : ruleL 0 badL = some false := by
  rw [show ruleL 0 badL = andThenB (isFingerClosedL badL 1) fun _ =>
    andThenB (isFingerClosedL badL 2) fun _ =>
    andThenB (isFingerClosedL badL 3) fun _ =>
    andThenB (isFingerClosedL badL 4) fun _ =>
    notB (isFingerClosedL badL 0) from rfl, badL_closed1]
  rfl

lemma badL_rule1 : ruleL 1 badL = none := by
  rw [show ruleL 1 badL = andThenB (notB (isFingerClosedL badL 1)) fun _ =>
    andThenB (notB (isFingerClosedL badL 2)) fun _ =>
    andThenB (notB (isFingerClosedL badL 3)) fun _ =>
    notB (isFingerClosedL badL 4) from rfl, badL_closed1, badL_closed2]
  rfl

lemma badL_dist48 : ∀ t : ℝ, distLtL badL 4 8 t = some (decide ((0 : ℝ) < t)) := by
  intro t
  norm_num [distLtL, badL, getDistance_self]

lemma badL_rule2 : ruleL 2 badL = none := by
  rw [show ruleL 2 badL = andThenB (distLtL badL 4 8 0.1) fun _ =>
    andThenB (notB (isFingerClosedL badL 1)) fun _ =>
    andThenB (notB (isFingerClosedL badL 2)) fun _ =>
    andThenB (notB (isFingerClosedL badL 3)) fun _ =>
    notB (isFingerClosedL badL 4) from rfl, badL_dist48, badL_closed1, badL_closed2]
  norm_num [andThenB, notB]

lemma badL_rule3 : ruleL 3 badL = none := by
  rw [show ruleL 3 badL = andThenB (notB (isFingerClosedL badL 1)) fun _ =>
    andThenB (isFingerClosedL badL 2) fun _ =>
    andThenB (isFingerClosedL badL 3) fun _ =>
    isFingerClosedL badL 4 from rfl, badL_closed1, badL_closed2]
  rfl

lemma badL_rule4 : ruleL 4 badL = some false := by
  rw [show ruleL 4 badL = andThenB (isFingerClosedL badL 1) fun _ =>
    andThenB (isFingerClosedL badL 2) fun _ =>
    andThenB (isFingerClosedL badL 3) fun _ =>
    isFingerClosedL badL 4 from rfl, badL_closed1]
  rfl

lemma badL_rule5 : ruleL 5 badL = none := by
  rw [show ruleL 5 badL = andThenB (distLtL badL 4 8 0.05) fun _ =>
    andThenB (notB (isFingerClosedL badL 2)) fun _ =>
    andThenB (notB (isFingerClosedL badL 3)) fun _ =>
    notB (isFingerClosedL badL 4) from rfl, badL_dist48, badL_closed2]
  norm_num [andThenB, notB]

lemma badL_rule6 : ruleL 6 badL = none := by
  rw [show ruleL 6 badL = andThenB (notB (isFingerClosedL badL 1)) fun _ =>
    andThenB (isFingerClosedL badL 2) fun _ =>
    andThenB (isFingerClosedL badL 3) fun _ =>
    andThenB (isFingerClosedL badL 4) fun _ =>
    notB (isFingerClosedL badL 0) from rfl, badL_closed1, badL_closed2]
  rfl

lemma badL_rule7 : ruleL 7 badL = none := by
  rw [show ruleL 7 badL = andThenB (notB (isFingerClosedL badL 1)) fun _ =>
    andThenB (notB (isFingerClosedL badL 2)) fun _ =>
    andThenB (isFingerClosedL badL 3) fun _ =>
    isFingerClosedL badL 4 from rfl, badL_closed1, badL_closed2]
  rfl

lemma badL_rule8 : ruleL 8 badL = some false := by
  rw [show ruleL 8 badL = andThenB (isFingerClosedL badL 1) fun _ =>
    andThenB (isFingerClosedL badL 2) fun _ =>
    andThenB (isFingerClosedL badL 3) fun _ =>
    notB (isFingerClosedL badL 4) from rfl, badL_closed1]
  rfl

lemma badL_rule9 : ruleL 9 badL = some false := by
  rw [show ruleL 9 badL = andThenB (isFingerClosedL badL 1) fun _ =>
    andThenB (isFingerClosedL badL 2) fun _ =>
    andThenB (isFingerClosedL badL 3) fun _ =>
    notB (isFingerClosedL badL 4) from rfl, badL_closed1]
  rfl

lemma badL_rule10 : ruleL 10 badL = none := by
  rw [show ruleL 10 badL = andThenB (notB (isFingerClosedL badL 1)) fun _ =>
    andThenB (notB (isFingerClosedL badL 2)) fun _ =>
    andThenB (isFingerClosedL badL 3) fun _ =>
    andThenB (isFingerClosedL badL 4) fun _ =>
    distLtL badL 4 10 0.1 from rfl, badL_closed1, badL_closed2]
  rfl

lemma badL_rule11 : ruleL 11 badL = none := by
  rw [show ruleL 11 badL = andThenB (notB (isFingerClosedL badL 1)) fun _ =>
    andThenB (isFingerClosedL badL 2) fun _ =>
    andThenB (isFingerClosedL badL 3) fun _ =>
    andThenB (isFingerClosedL badL 4) fun _ => (do
      let p4 ← badL[4]?
      let p3 ← badL[3]?
      pure (decide (p4.x > p3.x))) from rfl, badL_closed1, badL_closed2]
  rfl

lemma badL_rule12 : ruleL 12 badL = some false := by
  rw [show ruleL 12 badL = andThenB (isFingerClosedL badL 1) fun _ =>
    andThenB (isFingerClosedL badL 2) fun _ =>
    andThenB (isFingerClosedL badL 3) fun _ => (do
      let p4 ← badL[4]?
      let p5 ← badL[5]?
      pure (decide (p4.x < p5.x))) from rfl, badL_closed1]
  rfl

lemma badL_rule13 : ruleL 13 badL = some false := by
  rw [show ruleL 13 badL = andThenB (isFingerClosedL badL 1) fun _ =>
    andThenB (isFingerClosedL badL 2) fun _ =>
    andThenB (isFingerClosedL badL 3) fun _ =>
    andThenB (isFingerClosedL badL 4) fun _ => (do
      let p4 ← badL[4]?
      let p9 ← badL[9]?
      pure (decide (p4.x < p9.x))) from rfl, badL_closed1]
  rfl

lemma badL_rule14 : ruleL 14 badL = some true := by
  rw [show ruleL 14 badL = distLtL badL 4 8 0.08 from rfl, badL_dist48]
  norm_num

lemma badL_rule15 : ruleL 15 badL = none := by
  rw [show ruleL 15 badL = andThenB (notB (isFingerClosedL badL 1)) fun _ =>
    andThenB (isFingerClosedL badL 2) fun _ =>
    andThenB (isFingerClosedL badL 3) fun _ =>
    andThenB (isFingerClosedL badL 4) fun _ => (do
      let p8 ← badL[8]?
      let p5 ← badL[5]?
      pure (decide (p8.y > p5.y))) from rfl, badL_closed1, badL_closed2]
  rfl

lemma badL_rule16 : ruleL 16 badL = none := by
  rw [show ruleL 16 badL = andThenB (notB (isFingerClosedL badL 1)) fun _ =>
    andThenB (isFingerClosedL badL 2) fun _ =>
    andThenB (isFingerClosedL badL 3) fun _ =>
    andThenB (notB (isFingerClosedL badL 4)) fun _ => (do
      let p8 ← badL[8]?
      let p5 ← badL[5]?
      pure (decide (p8.y > p5.y))) from rfl, badL_closed1, badL_closed2]
  rfl

lemma badL_rule17 : ruleL 17 badL = none := by
  rw [show ruleL 17 badL = andThenB (notB (isFingerClosedL badL 1)) fun _ =>
    andThenB (notB (isFingerClosedL badL 2)) fun _ =>
    andThenB (isFingerClosedL badL 3) fun _ =>
    andThenB (isFingerClosedL badL 4) fun _ =>
    distLtL badL 8 12 0.1 from rfl, badL_closed1, badL_closed2]
  rfl

lemma badL_rule18 : ruleL 18 badL = some false := by
  rw [show ruleL 18 badL = andThenB (isFingerClosedL badL 1) fun _ =>
    andThenB (isFingerClosedL badL 2) fun _ =>
    andThenB (isFingerClosedL badL 3) fun _ =>
    andThenB (isFingerClosedL badL 4) fun _ => (do
      let p4 ← badL[4]?
      let p8 ← badL[8]?
      pure (decide (p4.z < p8.z))) from rfl, badL_closed1]
  rfl

lemma badL_rule19 : ruleL 19 badL = some false := by
  rw [show ruleL 19 badL = andThenB (isFingerClosedL badL 1) fun _ =>
    andThenB (isFingerClosedL badL 2) fun _ =>
    andThenB (isFingerClosedL badL 3) fun _ =>
    andThenB (isFingerClosedL badL 4) fun _ =>
    andThenB (do
      let p4 ← badL[4]?
      let p6 ← badL[6]?
      pure (decide (p4.x > p6.x))) fun _ => (do
      let p4 ← badL[4]?
      let p10 ← badL[10]?
      pure (decide (p4.x < p10.x))) from rfl, badL_closed1]
  rfl

lemma badL_rule20 : ruleL 20 badL = none := by
  rw [show ruleL 20 badL = andThenB (notB (isFingerClosedL badL 1)) fun _ =>
    andThenB (notB (isFingerClosedL badL 2)) fun _ =>
    andThenB (isFingerClosedL badL 3) fun _ =>
    andThenB (isFingerClosedL badL 4) fun _ =>
    distLtL badL 8 12 0.15 from rfl, badL_closed1, badL_closed2]
  rfl

lemma badL_rule21 : ruleL 21 badL = none := by
  rw [show ruleL 21 badL = andThenB (notB (isFingerClosedL badL 1)) fun _ =>
    andThenB (notB (isFingerClosedL badL 2)) fun _ =>
    andThenB (isFingerClosedL badL 3) fun _ =>
    andThenB (isFingerClosedL badL 4) fun _ =>
    distGtL badL 8 12 0.15 from rfl, badL_closed1, badL_closed2]
  rfl

lemma badL_rule22 : ruleL 22 badL = none := by
  rw [show ruleL 22 badL = andThenB (notB (isFingerClosedL badL 1)) fun _ =>
    andThenB (notB (isFingerClosedL badL 2)) fun _ =>
    andThenB (notB (isFingerClosedL badL 3)) fun _ =>
    isFingerClosedL badL 4 from rfl, badL_closed1, badL_closed2]
  rfl

lemma badL_rule23 : ruleL 23 badL = some false := by
  have h1 : (do
      let p8 ← badL[8]?
      let p7 ← badL[7]?
      pure (decide (p8.y > p7.y)) : Option Bool) = some false := by
    norm_num [badL, badPt]
  rw [show ruleL 23 badL = andThenB (do
      let p8 ← badL[8]?
      let p7 ← badL[7]?
      pure (decide (p8.y > p7.y))) fun _ =>
    andThenB (do
      let p7 ← badL[7]?
      let p6 ← badL[6]?
      pure (decide (p7.y < p6.y))) fun _ =>
    andThenB (isFingerClosedL badL 2) fun _ =>
    andThenB (isFingerClosedL badL 3) fun _ =>
    isFingerClosedL badL 4 from rfl, h1]
  rfl

lemma badL_rule24 : ruleL 24 badL = some false := by
  rw [show ruleL 24 badL = andThenB (isFingerClosedL badL 1) fun _ =>
    andThenB (isFingerClosedL badL 2) fun _ =>
    andThenB (isFingerClosedL badL 3) fun _ =>
    andThenB (notB (isFingerClosedL badL 4)) fun _ =>
    notB (isFingerClosedL badL 0) from rfl, badL_closed1]
  rfl

lemma badL_rule25 : ruleL 25 badL = none := by
  rw [show ruleL 25 badL = andThenB (notB (isFingerClosedL badL 1)) fun _ =>
    andThenB (isFingerClosedL badL 2) fun _ =>
    andThenB (isFingerClosedL badL 3) fun _ =>
    andThenB (isFingerClosedL badL 4) fun _ => (do
      let p8 ← badL[8]?
      let p5 ← badL[5]?
      pure (decide (p8.y > p5.y))) from rfl, badL_closed1, badL_closed2]
  rfl

lemma badL_reinf14 : reinforcementL badL 14 = some 0 := by
  norm_num [reinforcementL, badL, badPt, getDistance_self]

lemma range26 : List.range 26 =
    [0, 1, 2, 3, 4, 5, 6, 7, 8, 9, 10, 11, 12, 13, 14, 15, 16, 17, 18, 19,
     20, 21, 22, 23, 24, 25] := by decide

set_option maxHeartbeats 2000000 in
lemma badL_conf14 : gestureConfidenceL badL 14 = some 0.8 := by
  unfold gestureConfidenceL
  rw [badL_reinf14, show (badL[0]? : Option Landmark) = some badPt from rfl]
  simp only [Option.some_bind, range26, List.foldl_cons, List.foldl_nil,
    badL_rule0, badL_rule1, badL_rule2, badL_rule3, badL_rule4, badL_rule5,
    badL_rule6, badL_rule7, badL_rule8, badL_rule9, badL_rule10, badL_rule11,
    badL_rule12, badL_rule13, badL_rule14, badL_rule15, badL_rule16, badL_rule17,
    badL_rule18, badL_rule19, badL_rule20, badL_rule21, badL_rule22, badL_rule23,
    badL_rule24, badL_rule25]
  norm_num [badPt]

/-- On the malformed 9-landmark input the engine returns letter O (id 14)
with confidence 0.8: rules needing missing landmarks error out and are
skipped, but rule 14 only needs landmarks 4 and 8 and still matches. -/
lemma recognizeL_badL : recognizeGestureL badL = (some 14, 0.8) := by
  unfold recognizeGestureL
  rw [range26]
  simp only [List.foldl_cons, List.foldl_nil]
  have h14 : recognizeStepL badL (none, 0) 14 = (some 14, 0.8) := by
    unfold recognizeStepL
    rw [badL_rule14, badL_conf14]
    norm_num
  rw [recognizeStepL_false badL _ 0 badL_rule0,
    recognizeStepL_error badL _ 1 badL_rule1,
    recognizeStepL_error badL _ 2 badL_rule2,
    recognizeStepL_error badL _ 3 badL_rule3,
    recognizeStepL_false badL _ 4 badL_rule4,
    recognizeStepL_error badL _ 5 badL_rule5,
    recognizeStepL_error badL _ 6 badL_rule6,
    recognizeStepL_error badL _ 7 badL_rule7,
    recognizeStepL_false badL _ 8 badL_rule8,
    recognizeStepL_false badL _ 9 badL_rule9,
    recognizeStepL_error badL _ 10 badL_rule10,
    recognizeStepL_error badL _ 11 badL_rule11,
    recognizeStepL_false badL _ 12 badL_rule12,
    recognizeStepL_false badL _ 13 badL_rule13,
    h14,
    recognizeStepL_error badL _ 15 badL_rule15,
    recognizeStepL_error badL _ 16 badL_rule16,
    recognizeStepL_error badL _ 17 badL_rule17,
    recognizeStepL_false badL _ 18 badL_rule18,
    recognizeStepL_false badL _ 19 badL_rule19,
    recognizeStepL_error badL _ 20 badL_rule20,
    recognizeStepL_error badL _ 21 badL_rule21,
    recognizeStepL_error badL _ 22 badL_rule22,
    recognizeStepL_false badL _ 23 badL_rule23,
    recognizeStepL_false badL _ 24 badL_rule24,
    recognizeStepL_error badL _ 25 badL_rule25]
  norm_num

/-! ### Claim theorems -/

/-- C1: the selector evaluates the 26 rules in the fixed id order, scores
each match, keeps the maximum under strict `>` so the first letter wins
ties, and returns the best letter with its confidence iff that confidence
exceeds 0.7, returning `(none, 0.0)` otherwise. -/
theorem c1_selector_correct (h : Hand) :
    ((∀ g, rule g h → gestureConfidence h g ≤ 0.7) → recognizeGesture h = (none, 0)) ∧
    (∀ g c, recognizeGesture h = (some g, c) →
      rule g h ∧ c = gestureConfidence h g ∧ 0.7 < c ∧
      (∀ g2, rule g2 h → gestureConfidence h g2 ≤ c) ∧
      (∀ g2, g2 < g → rule g2 h → gestureConfidence h g2 < c)) ∧
    ((∃ g, rule g h ∧ 0.7 < gestureConfidence h g) →
      ∃ g c, recognizeGesture h = (some g, c)) :=
  ⟨recognize_reject h, fun _ _ hrec => recognize_sound hrec,
   fun ⟨_, hrg, hgt⟩ => recognize_accept hrg hgt⟩

/-- C1 witness: on a hand matching no rule the selector rejects, and on a
hand with a match above 0.7 it accepts. -/
theorem c1_selector_correct_witness :
    recognizeGesture noneHand = (none, 0) ∧
    ∃ g c, recognizeGesture tieHand = (some g, c) :=
  ⟨(c1_selector_correct noneHand).1 (fun g hr => absurd hr (noneHand_no_rule g)),
   (c1_selector_correct tieHand).2.2 ⟨1, tie_rule1, by rw [tie_conf1]; norm_num⟩⟩

/-- C2 counterexample: on `tieHand` the thumb tip y (0.5) exceeds the
proximal joint y (0), yet the code reports the thumb as not closed — the
code comparison is `landmarks[3].y > landmarks[4].y`, the reverse of the
claim. -/
theorem c2_thumb_counterexample :
    ¬ (isFingerClosed tieHand 0 ↔ (tieHand 4).y > (tieHand 3).y) := by
  rw [isFingerClosed_zero]
  intro hiff
  have h1 : (tieHand 4).y > (tieHand 3).y := by
    show (0.5 : ℝ) > 0
    norm_num
  exact absurd (show (0 : ℝ) > 0.5 from hiff.mpr h1) (by norm_num)

/-- C2 amended: the thumb is reported closed iff landmark 3 y is greater
than landmark 4 y (tip y strictly less than proximal joint y). -/
theorem c2_thumb_closed_amended (h : Hand) :
    isFingerClosed h 0 ↔ (h 3).y > (h 4).y := isFingerClosed_zero h

/-- C2 witness: evaluated at the concrete hand, the amended criterion
reports the thumb open. -/
theorem c2_thumb_closed_amended_witness : ¬ isFingerClosed tieHand 0 :=
  fun hc => absurd ((c2_thumb_closed_amended tieHand).mp hc)
    (by show ¬ ((0 : ℝ) > 0.5); norm_num)

/-- C3: for fingers 1..4 the predicate holds iff base-to-tip distance is
strictly below 0.7 times the path length through the middle joint, with the
equality case classified as not closed. -/
theorem c3_finger_ratio (h : Hand) (f : Fin 5) (hf : 1 ≤ f.val) :
    (isFingerClosed h f ↔
      getDistance (h ⟨f.val * 4 + 1, by have := f.isLt; omega⟩)
          (h ⟨f.val * 4 + 3, by have := f.isLt; omega⟩) <
        0.7 * (getDistance (h ⟨f.val * 4 + 1, by have := f.isLt; omega⟩)
            (h ⟨f.val * 4 + 2, by have := f.isLt; omega⟩) +
          getDistance (h ⟨f.val * 4 + 2, by have := f.isLt; omega⟩)
            (h ⟨f.val * 4 + 3, by have := f.isLt; omega⟩))) ∧
    (getDistance (h ⟨f.val * 4 + 1, by have := f.isLt; omega⟩)
          (h ⟨f.val * 4 + 3, by have := f.isLt; omega⟩) =
        0.7 * (getDistance (h ⟨f.val * 4 + 1, by have := f.isLt; omega⟩)
            (h ⟨f.val * 4 + 2, by have := f.isLt; omega⟩) +
          getDistance (h ⟨f.val * 4 + 2, by have := f.isLt; omega⟩)
            (h ⟨f.val * 4 + 3, by have := f.isLt; omega⟩)) →
      ¬ isFingerClosed h f) := by
  have hne : ¬ (f.val = 0) := by omega
  constructor
  · unfold isFingerClosed
    rw [if_neg hne]
    constructor <;> intro hlt <;> linarith
  · intro heq hcl
    unfold isFingerClosed at hcl
    rw [if_neg hne] at hcl
    linarith

/-- C3 witness: the criterion instantiated at finger 1 of a concrete hand. -/
theorem c3_finger_ratio_witness :
    1 ≤ (1 : Fin 5).val ∧
    (isFingerClosed tieHand 1 ↔
      getDistance (tieHand 5) (tieHand 7) <
        0.7 * (getDistance (tieHand 5) (tieHand 6) +
          getDistance (tieHand 6) (tieHand 7))) :=
  ⟨by decide, (c3_finger_ratio tieHand 1 (by decide)).1⟩

/-- C4: the confidence is the clamp to [0, 1] of base 0.75 plus the
letter-specific reinforcement, minus 0.1 per other matching rule, plus the
0.05 centering bonus; the reinforcement is 0 for every id outside
A, B, C, D, L, O, V, W, Y, and for B it is -0.3 exactly when fewer than all
4 non-thumb fingers are extended and 0.15 otherwise. -/
theorem c4_confidence_formula (h : Hand) (g : Fin 26) :
    gestureConfidence h g =
      max 0 (min (0.75 + reinforcement h g - 0.1 * (otherMatchCount h g : ℝ)
        + (if centered h then (0.05 : ℝ) else 0)) 1) ∧
    (¬ (g.val = 0 ∨ g.val = 1 ∨ g.val = 2 ∨ g.val = 3 ∨ g.val = 11 ∨ g.val = 14 ∨
        g.val = 21 ∨ g.val = 22 ∨ g.val = 24) → reinforcement h g = 0) ∧
    (g.val = 1 → extendedCount h [1, 2, 3, 4] ≠ 4 → reinforcement h g = -0.3) ∧
    (g.val = 1 → extendedCount h [1, 2, 3, 4] = 4 → reinforcement h g = 0.15) := by
  refine ⟨gestureConfidence_closed h g, ?_, ?_, ?_⟩
  · intro hnot
    fin_cases g
    all_goals first
      | rfl
      | exact absurd (by decide) hnot
  · intro h1 hne
    have hg : g = 1 := Fin.ext h1
    subst hg
    rw [show reinforcement h 1 =
      (if extendedCount h [1, 2, 3, 4] = 4 then (0.15 : ℝ) else -0.3) from rfl,
      if_neg hne]
  · intro h1 heq
    have hg : g = 1 := Fin.ext h1
    subst hg
    rw [show reinforcement h 1 =
      (if extendedCount h [1, 2, 3, 4] = 4 then (0.15 : ℝ) else -0.3) from rfl,
      if_pos heq]

/-- C4 witness: on a concrete hand, id 5 (letter F, outside the reinforced
set) gets reinforcement 0 and id 1 (letter B, all fingers extended) gets
reinforcement 0.15. -/
theorem c4_confidence_formula_witness :
    reinforcement tieHand 5 = 0 ∧ reinforcement tieHand 1 = 0.15 :=
  ⟨(c4_confidence_formula tieHand 5).2.1 (by decide),
   (c4_confidence_formula tieHand 1).2.2.2 rfl (by
      unfold extendedCount
      simp [tie_open1, tie_open2, tie_open3, tie_open4])⟩

/-- C5: for every letter and every 21-landmark input, the confidence lies
in [0, 1]. -/
theorem c5_confidence_range (h : Hand) (g : Fin 26) :
    0 ≤ gestureConfidence h g ∧ gestureConfidence h g ≤ 1 :=
  ⟨gestureConfidence_nonneg h g, gestureConfidence_le_one h g⟩

/-- C6 counterexample: with every landmark at the same point, the strict
comparisons fail (0 < 0 and y > y are false), so finger 1 is not closed and
rule E cannot match — the opposite of the claim. -/
theorem c6_degenerate_counterexample :
    ¬ (isFingerClosed (constHand ⟨0.5, 0.5, 0⟩) 1 ∧
       rule 4 (constHand ⟨0.5, 0.5, 0⟩)) :=
  fun hc => constHand_not_closed ⟨0.5, 0.5, 0⟩ 1 hc.1

/-- C6 amended: on the all-coincident hand every finger-closed check is
false (all distances are 0 and the strict `<` fails at 0 < 0; the thumb
comparison y > y also fails), rule E (all fingers closed) does not match,
and instead rule B (all fingers not closed) matches. -/
theorem c6_degenerate_amended (p : Landmark) :
    (∀ f : Fin 5, ¬ isFingerClosed (constHand p) f) ∧
    ¬ rule 4 (constHand p) ∧ rule 1 (constHand p) :=
  ⟨constHand_not_closed p, constHand_not_ruleE p, constHand_ruleB p⟩

/-- C7 counterexample: rules B and C both match `tieHand` with equal
confidence 0.85 > 0.7; the fixed order returns B while the order with ids 1
and 2 swapped returns C, so the selected letter is order dependent. -/
theorem c7_order_counterexample :
    swappedOrder.Perm (List.finRange 26) ∧
    recognizeGesture tieHand = (some 1, 0.85) ∧
    recognizeGestureOrder swappedOrder tieHand = (some 2, 0.85) :=
  ⟨swappedOrder_perm, recognize_tieHand, recognize_tieHand_swapped⟩

/-- C7 amended: permuting the rule evaluation order never changes the
returned confidence, and never changes the selected letter provided no two
distinct matching letters tie on confidence; in a tie the first letter in
the evaluation order wins, so the letter depends on the order. -/
theorem c7_order_invariance_amended (h : Hand) (ord : List (Fin 26))
    (hperm : ord.Perm (List.finRange 26)) :
    (recognizeGestureOrder ord h).2 = (recognizeGesture h).2 ∧
    ((∀ g1 g2, rule g1 h → rule g2 h →
        gestureConfidence h g1 = gestureConfidence h g2 → g1 = g2) →
      recognizeGestureOrder ord h = recognizeGesture h) :=
  ⟨recognizeOrder_snd_perm h hperm,
   fun hdist => recognizeOrder_eq_of_distinct h hperm hdist⟩

/-- C7 witness: the amended invariance applied to the swapped order on a
hand with no matching rules (distinctness holds vacuously). -/
theorem c7_order_invariance_amended_witness :
    recognizeGestureOrder swappedOrder noneHand = recognizeGesture noneHand :=
  (c7_order_invariance_amended noneHand swappedOrder swappedOrder_perm).2
    (fun g1 _ hr1 _ _ => absurd hr1 (noneHand_no_rule g1))

/-- C8 counterexample: a malformed input of 9 identical landmarks, on which
the engine returns letter O (id 14) with confidence 0.8 instead of the
claimed `(none, 0)` — only rules touching missing landmarks error out. -/
theorem c8_malformed_counterexample :
    badL.length ≠ 21 ∧ recognizeGestureL badL = (some 14, 0.8) :=
  ⟨by rw [show badL.length = 9 from rfl]; norm_num, recognizeL_badL⟩

/-- C8 amended: a rule that raises is treated as a non-match for that
letter only and the remaining rules are still evaluated (the step leaves
the accumulator untouched), and the engine returns `(none, 0)` whenever no
rule evaluates successfully to a match scoring above 0.7; but a malformed
input on which some rule still evaluates successfully can produce a
non-none result. -/
theorem c8_error_isolation_amended :
    (∀ (L : List Landmark) (acc : Option ℕ × ℝ) (g : ℕ),
      ruleL g L = none → recognizeStepL L acc g = acc) ∧
    (∀ L : List Landmark,
      (∀ g, g < 26 → ∀ c, ruleL g L = some true →
        gestureConfidenceL L g = some c → c ≤ 0.7) →
      recognizeGestureL L = (none, 0)) :=
  ⟨recognizeStepL_error, recognizeL_reject⟩

/-- C8 witness: on the empty landmark list every rule raises, and the
engine returns `(none, 0)`. -/
theorem c8_error_isolation_amended_witness :
    recognizeGestureL [] = (none, 0) :=
  c8_error_isolation_amended.2 []
    (fun g hg _ htrue _ => by rw [ruleL_nil g hg] at htrue; cases htrue)

/-- C9: the rules for I and J (ids 8, 9) are extensionally identical, as
are the rules for P and Z (ids 15, 25); the twins always receive equal
confidence (in particular whenever both match), and the strict-maximum
selector over the fixed order can never return J or Z. -/
theorem c9_twin_rules (h : Hand) :
    (rule 8 h ↔ rule 9 h) ∧ (rule 15 h ↔ rule 25 h) ∧
    gestureConfidence h 8 = gestureConfidence h 9 ∧
    gestureConfidence h 15 = gestureConfidence h 25 ∧
    (recognizeGesture h).1 ≠ some 9 ∧ (recognizeGesture h).1 ≠ some 25 := by
  have hc89 : gestureConfidence h 8 = gestureConfidence h 9 :=
    gestureConfidence_eq_of_twin h 8 9 (rule_8_iff_9 h)
      ((reinforcement_8 h).trans (reinforcement_9 h).symm)
  have hc1525 : gestureConfidence h 15 = gestureConfidence h 25 :=
    gestureConfidence_eq_of_twin h 15 25 (rule_15_iff_25 h)
      ((reinforcement_15 h).trans (reinforcement_25 h).symm)
  exact ⟨rule_8_iff_9 h, rule_15_iff_25 h, hc89, hc1525,
    recognize_not_later_twin (by decide) (rule_8_iff_9 h) hc89,
    recognize_not_later_twin (by decide) (rule_15_iff_25 h) hc1525⟩

/-- C9 witness: on a concrete hand the selector does not return J, and the
I and J confidences coincide. -/
theorem c9_twin_rules_witness :
    (recognizeGesture tieHand).1 ≠ some 9 ∧
    gestureConfidence tieHand 8 = gestureConfidence tieHand 9 :=
  ⟨(c9_twin_rules tieHand).2.2.2.2.1, (c9_twin_rules tieHand).2.2.1⟩

/-- C10: whenever the engine returns a gesture its confidence exceeds 0.7,
hence the looser `> 0.6` acceptance check of `process_frame` always passes
on an engine-accepted result. -/
theorem c10_threshold_gap (h : Hand) (g : Fin 26) (c : ℝ)
    (hrec : recognizeGesture h = (some g, c)) :
    0.7 < c ∧ frameAccepts (recognizeGesture h) := by
  obtain ⟨-, -, hth, -, -⟩ := recognize_sound hrec
  refine ⟨hth, ?_, ?_⟩
  · rw [hrec]
    simp
  · rw [hrec]
    show c > 0.6
    linarith

/-- C10 witness: the tie hand is accepted at 0.85, which passes both the
0.7 and the 0.6 gates. -/
theorem c10_threshold_gap_witness :
    0.7 < (0.85 : ℝ) ∧ frameAccepts (recognizeGesture tieHand) :=
  c10_threshold_gap tieHand 1 0.85 recognize_tieHand
